import Mathlib

/-!
Verification of the safety-critical SQL pipeline of the SQL_bot repository:
the SQL guard (static validator), schema catalog and join-path search, the
guarded executor, the sanity checks, and the chat orchestration loop.

Each Python function of the source is shallowly embedded as an executable
Lean definition; the parser (sqlglot) is modelled by an abstract AST
together with an `Option`-valued parse outcome.
-/

namespace SQLBot

/-! ## Keyword pre-filter (src/app/sql_guard.py, `_quick_keyword_check`) -/

/-- `FORBIDDEN_KEYWORDS` from src/app/sql_guard.py (iteration order fixed to
source order; only membership matters for validity). -/
def FORBIDDEN_KEYWORDS : List String :=
  ["INSERT", "UPDATE", "DELETE", "DROP", "CREATE", "ALTER",
   "TRUNCATE", "GRANT", "REVOKE", "COPY", "VACUUM", "ANALYZE",
   "CALL", "DO", "MERGE", "EXECUTE", "PREPARE", "DEALLOCATE",
   "COMMIT", "ROLLBACK", "SAVEPOINT", "LOCK", "UNLOCK",
   "SET ROLE", "RESET", "DISCARD", "LOAD", "UNLOAD"]

/-- Scan for the next occurrence of the quote character `q`; return the
suffix after it (the closing quote of a literal), or `none` when the quote
never closes. -/
def findClose (q : Char) : List Char → Option (List Char)
  | [] => none
  | c :: rest => if c = q then some rest else findClose q rest

/-- Fuel-based worker for `stripQuoted`; the fuel is an upper bound on the
list length, so it never runs out when called through `stripQuoted`. -/
def stripQuotedAux (q : Char) : Nat → List Char → List Char
  | 0, l => l
  | _ + 1, [] => []
  | fuel + 1, c :: rest =>
    if c = q then
      match findClose q rest with
      | some after => q :: q :: stripQuotedAux q fuel after
      | none => c :: rest
    else c :: stripQuotedAux q fuel rest

/-- Replicate `re.sub(r"q[^q]*q", "qq", s)` (leftmost, non-overlapping):
each closed `q … q` literal is replaced by an empty literal `qq`; an
unclosed opener is left untouched (the regex cannot match there or later). -/
def stripQuoted (q : Char) (l : List Char) : List Char :=
  stripQuotedAux q l.length l

/-- Python `\w` word character (ASCII fragment relevant to the keyword set). -/
def wordChar (c : Char) : Bool := c.isAlphanum || c = '_'

/-- Does `s` start with the character list `k`? -/
def startsWithChars : List Char → List Char → Bool
  | [], _ => true
  | _ :: _, [] => false
  | k :: ks, c :: cs => k = c && startsWithChars ks cs

/-- Does the keyword match at the current position with `\b` boundaries on
both sides?  `prev` is the character just before the position (`none` at the
start of the string). -/
def matchHere (kw : List Char) (prev : Option Char) (s : List Char) : Bool :=
  (match prev with | none => true | some p => !wordChar p) &&
  startsWithChars kw s &&
  (match s.drop kw.length with | [] => true | c :: _ => !wordChar c)

/-- Scan every position of `s` for a `\b kw \b` match. -/
def containsWordAux (kw : List Char) : Option Char → List Char → Bool
  | prev, [] => matchHere kw prev []
  | prev, c :: rest => matchHere kw prev (c :: rest) || containsWordAux kw (some c) rest

/-- `re.search(rf"\b{kw}\b", s)` as a Boolean, for the (regex-free) keywords
of the forbidden set. -/
def containsWholeWord (kw s : String) : Bool :=
  containsWordAux kw.toList none s.toList

/-- The result of stripping string literals from the uppercased SQL, as done
by `_quick_keyword_check`: single-quoted literals first, then double-quoted
literals. -/
def cleanedSql (sql : String) : List Char :=
  stripQuoted '\"' (stripQuoted '\'' (sql.toList.map Char.toUpper))

/-- `_quick_keyword_check` from src/app/sql_guard.py: returns an error
message when a forbidden keyword appears as a whole word in the
literal-stripped uppercased SQL, `none` when the SQL passes. -/
def quickKeywordCheck (sql : String) : Option String :=
  (FORBIDDEN_KEYWORDS.find? (fun kw => containsWordAux kw.toList none (cleanedSql sql))).map
    (fun kw => "Forbidden keyword: " ++ kw)

/-- ASCII `str.upper()`. -/
def upperS (s : String) : String := String.mk (s.data.map Char.toUpper)

/-- ASCII `str.lower()`. -/
def lowerS (s : String) : String := String.mk (s.data.map Char.toLower)

/-! ## SQL AST (abstraction of the sqlglot expression tree)

The guard never re-serialises SQL: it only inspects node kinds, names,
aliases and children.  The AST below carries exactly that structure.  A
table or column qualifier of `""` stands for "absent" (Python `None`/empty).
-/

/-- The aggregate function nodes `exp.Count/Sum/Avg/Min/Max/ArrayAgg`. -/
inductive AggKind where
  | count | sumA | avgA | minA | maxA | arrayAgg
deriving DecidableEq, Repr

/-- The integer value of a `LIMIT` clause, or a non-integer limit expression
(whose `int(...)` conversion fails in `_get_limit_value`). -/
inductive LimitVal where
  | num (n : Int)
  | expr (s : String)
deriving DecidableEq, Repr

mutual

inductive SqlExpr where
  | column (tbl : String) (name : String)
  | star (tbl : String)
  | agg (k : AggKind) (args : List SqlExpr)
  | eqE (l r : SqlExpr)
  | andE (l r : SqlExpr)
  | litE (v : String)
  | node (kind : String) (children : List SqlExpr)
  | sub (s : SelectCore)

inductive FromItem where
  | table (name : String) (aliasName : String)
  | subquery (s : SelectCore) (aliasName : String)

inductive JoinClause where
  | mk (src : FromItem) (onCond : Option SqlExpr)

inductive SelectCore where
  | mk (distinct : Bool) (projections : List SqlExpr) (fromItems : List FromItem)
      (joins : List JoinClause) (whereCond : Option SqlExpr)
      (groupBy : List SqlExpr) (limit : Option LimitVal)

end

/-- A parsed statement (`sqlglot.parse_one` output shape): a SELECT, a set
operation, some other single-child wrapper node, or a non-SELECT statement
kind (INSERT, …). -/
inductive Stmt where
  | select (s : SelectCore)
  | union (l r : Stmt)
  | wrap (kind : String) (inner : Stmt)
  | other (kind : String)

def SelectCore.distinct : SelectCore → Bool
  | .mk d _ _ _ _ _ _ => d

def SelectCore.projections : SelectCore → List SqlExpr
  | .mk _ p _ _ _ _ _ => p

def SelectCore.fromItems : SelectCore → List FromItem
  | .mk _ _ f _ _ _ _ => f

def SelectCore.joins : SelectCore → List JoinClause
  | .mk _ _ _ j _ _ _ => j

def SelectCore.whereCond : SelectCore → Option SqlExpr
  | .mk _ _ _ _ w _ _ => w

def SelectCore.groupBy : SelectCore → List SqlExpr
  | .mk _ _ _ _ _ g _ => g

def SelectCore.limit : SelectCore → Option LimitVal
  | .mk _ _ _ _ _ _ l => l

/-- `type(parsed).__name__` for the statement-type error message. -/
def Stmt.kindName : Stmt → String
  | .select _ => "Select"
  | .union _ _ => "Union"
  | .wrap k _ => k
  | .other k => k

/-! ### Generic tree walk (`Expression.find_all`) -/

/-- A node of the heterogeneous sqlglot tree, for the generic DFS walk. -/
inductive TNode where
  | stmt (s : Stmt)
  | sel (s : SelectCore)
  | fitem (f : FromItem)
  | jitem (j : JoinClause)
  | ex (e : SqlExpr)
  | limitN (v : LimitVal)

/-- `exp.Limit` nodes contributed by a select's limit clause. -/
def walkLimit : Option LimitVal → List TNode
  | none => []
  | some v => [.limitN v]

mutual

/-- DFS preorder over an expression, as `Expression.find_all` visits it. -/
def walkExpr : SqlExpr → List TNode
  | .column t n => [.ex (.column t n)]
  | .star t => [.ex (.star t)]
  | .agg k args => .ex (.agg k args) :: walkExprList args
  | .eqE l r => .ex (.eqE l r) :: (walkExpr l ++ walkExpr r)
  | .andE l r => .ex (.andE l r) :: (walkExpr l ++ walkExpr r)
  | .litE v => [.ex (.litE v)]
  | .node k cs => .ex (.node k cs) :: walkExprList cs
  | .sub s => .ex (.sub s) :: walkSelect s

def walkExprList : List SqlExpr → List TNode
  | [] => []
  | e :: es => walkExpr e ++ walkExprList es

def walkOptExpr : Option SqlExpr → List TNode
  | none => []
  | some e => walkExpr e

def walkFromItem : FromItem → List TNode
  | .table n a => [.fitem (.table n a)]
  | .subquery s a => .fitem (.subquery s a) :: walkSelect s

def walkFromList : List FromItem → List TNode
  | [] => []
  | f :: fs => walkFromItem f ++ walkFromList fs

def walkJoin : JoinClause → List TNode
  | .mk src onCond => .jitem (.mk src onCond) :: (walkFromItem src ++ walkOptExpr onCond)

def walkJoinList : List JoinClause → List TNode
  | [] => []
  | j :: js => walkJoin j ++ walkJoinList js

def walkSelect : SelectCore → List TNode
  | .mk d p f j w g l =>
      .sel (.mk d p f j w g l) ::
        (walkExprList p ++ walkFromList f ++ walkJoinList j ++ walkOptExpr w ++
         walkExprList g ++ walkLimit l)

end

/-- DFS preorder over a whole statement. -/
def walkStmt : Stmt → List TNode
  | .select s => .stmt (.select s) :: walkSelect s
  | .union l r => .stmt (.union l r) :: (walkStmt l ++ walkStmt r)
  | .wrap k inner => .stmt (.wrap k inner) :: walkStmt inner
  | .other k => [.stmt (.other k)]

/-- All `exp.Table` nodes of a walked subtree: `(name, alias)` pairs. -/
def tablesOf (ns : List TNode) : List (String × String) :=
  ns.filterMap (fun t =>
    match t with
    | .fitem (.table name aliasName) => some (name, aliasName)
    | _ => none)

/-- All `exp.Column` nodes of a walked subtree: `(table, name)` pairs. -/
def columnsOf (ns : List TNode) : List (String × String) :=
  ns.filterMap (fun t =>
    match t with
    | .ex (.column tbl name) => some (tbl, name)
    | _ => none)

/-- All `exp.Select` nodes of a walked subtree, in DFS order. -/
def selectsOf (ns : List TNode) : List SelectCore :=
  ns.filterMap (fun t =>
    match t with
    | .sel s => some s
    | _ => none)

/-- All `exp.Limit` nodes of a walked subtree. -/
def limitsOf (ns : List TNode) : List LimitVal :=
  ns.filterMap (fun t =>
    match t with
    | .limitN v => some v
    | _ => none)

/-! ## Column maps (Python `dict[str, list[str]]`, insertion-ordered) -/

/-- Insertion-ordered map from table key to list of column names. -/
abbrev ColMap := List (String × List String)

def mapFind (m : ColMap) (k : String) : Option (List String) :=
  (m.find? (fun p => p.1 == k)).map Prod.snd

/-- `if t not in columns: columns[t] = []` followed by
`if c not in columns[t]: columns[t].append(c)`. -/
def addColEntry (m : ColMap) (t c : String) : ColMap :=
  match mapFind m t with
  | none => m ++ [(t, [c])]
  | some cs =>
      if c ∈ cs then m
      else m.map (fun p => if p.1 == t then (p.1, p.2 ++ [c]) else p)

/-- Python dict assignment `m[k] = cs` (overwrite in place, or append). -/
def setEntry (m : ColMap) (k : String) (cs : List String) : ColMap :=
  if (m.find? (fun p => p.1 == k)).isSome
  then m.map (fun p => if p.1 == k then (k, cs) else p)
  else m ++ [(k, cs)]

/-- `if k not in m: m[k] = []` followed by `m[k].extend(cs)`. -/
def extendEntry (m : ColMap) (k : String) (cs : List String) : ColMap :=
  match mapFind m k with
  | none => m ++ [(k, cs)]
  | some old => m.map (fun p => if p.1 == k then (k, old ++ cs) else p)

/-! ## Reference extraction (src/app/sql_guard.py) -/

/-! `_collect_output_columns` and its recursion into child expressions:
columns inside aggregate functions are not collected. -/

mutual

def collectOutput : SqlExpr → ColMap → ColMap
  | .agg _ _, m => m
  | .column tbl name, m =>
      addColEntry m (if tbl == "" then "_UNKNOWN_" else upperS tbl) (lowerS name)
  | .star tbl, m =>
      addColEntry m (if tbl == "" then "_STAR_" else upperS tbl) "*"
  | .eqE l r, m => collectOutput r (collectOutput l m)
  | .andE l r, m => collectOutput r (collectOutput l m)
  | .litE _, m => m
  | .node _ cs, m => collectOutputList cs m
  | .sub s, m => collectOutputSelect s m

def collectOutputList : List SqlExpr → ColMap → ColMap
  | [], m => m
  | e :: es, m => collectOutputList es (collectOutput e m)

def collectOutputOpt : Option SqlExpr → ColMap → ColMap
  | none, m => m
  | some e, m => collectOutput e m

def collectOutputFrom : FromItem → ColMap → ColMap
  | .table _ _, m => m
  | .subquery s _, m => collectOutputSelect s m

def collectOutputFromList : List FromItem → ColMap → ColMap
  | [], m => m
  | f :: fs, m => collectOutputFromList fs (collectOutputFrom f m)

def collectOutputJoin : JoinClause → ColMap → ColMap
  | .mk src onCond, m => collectOutputOpt onCond (collectOutputFrom src m)

def collectOutputJoinList : List JoinClause → ColMap → ColMap
  | [], m => m
  | j :: js, m => collectOutputJoinList js (collectOutputJoin j m)

def collectOutputSelect : SelectCore → ColMap → ColMap
  | .mk _ p f j w g _, m =>
      collectOutputList g (collectOutputOpt w (collectOutputJoinList j
        (collectOutputFromList f (collectOutputList p m))))

end

/-- `_extract_output_columns`: columns visible in the SELECT output. -/
def extractOutputColumns : Stmt → ColMap
  | .select s => collectOutputList s.projections []
  | .union l r =>
      (selectsOf (walkStmt (.union l r))).foldl
        (fun m sel => collectOutputList sel.projections m) []
  | .wrap _ (.select s) => collectOutputList s.projections []
  | .wrap _ _ => []
  | .other _ => []

/-- `_extract_all_columns`: every column reference anywhere in the AST. -/
def extractAllColumns (parsed : Stmt) : ColMap :=
  (columnsOf (walkStmt parsed)).foldl (fun m p =>
    addColEntry m (if p.1 == "" then "_UNKNOWN_" else upperS p.1) (lowerS p.2)) []

/-- `_extract_tables`: the set of uppercase table names (first-occurrence
order; Python uses an unordered set). -/
def extractTables (parsed : Stmt) : List String :=
  (tablesOf (walkStmt parsed)).foldl (fun acc p =>
    if p.1 == "" then acc
    else if upperS p.1 ∈ acc then acc else acc ++ [upperS p.1]) []

/-- Insert with dict-overwrite semantics (`m[k] = v`). -/
def aliasInsert (m : List (String × String)) (k v : String) : List (String × String) :=
  if (m.find? (fun p => p.1 == k)).isSome
  then m.map (fun p => if p.1 == k then (k, v) else p)
  else m ++ [(k, v)]

/-- `aliases.get(k, k)`. -/
def aliasGet (m : List (String × String)) (k : String) : String :=
  match m.find? (fun p => p.1 == k) with
  | some p => p.2
  | none => k

/-- `_extract_table_aliases`: alias → table name (both uppercase); each real
table name also maps to itself. -/
def extractTableAliases (parsed : Stmt) : List (String × String) :=
  (tablesOf (walkStmt parsed)).foldl (fun m p =>
    if p.1 == "" then m
    else
      let tn := upperS p.1
      let m1 := if p.2 != "" then aliasInsert m (upperS p.2) tn else m
      aliasInsert m1 tn tn) []

/-- `_resolve_column_tables`: rewrite alias keys to real table names. -/
def resolveColumnTables (columns : ColMap) (aliases : List (String × String)) : ColMap :=
  columns.foldl (fun resolved p =>
    if p.1 == "_UNKNOWN_" || p.1 == "_STAR_" then setEntry resolved p.1 p.2
    else extendEntry resolved (aliasGet aliases (upperS p.1)) p.2) []

/-- Remove the first occurrence of `c` (Python `list.remove`). -/
def removeFirst : List String → String → List String
  | [], _ => []
  | x :: xs, c => if x == c then xs else x :: removeFirst xs c

def removeFromUnknown (m : ColMap) (c : String) : ColMap :=
  match mapFind m "_UNKNOWN_" with
  | some cs =>
      if c ∈ cs
      then m.map (fun p => if p.1 == "_UNKNOWN_" then (p.1, removeFirst p.2 c) else p)
      else m
  | none => m

/-- `table.alias or table.name`, uppercased, for every `exp.Table` found in
this select's FROM clause and JOINs (deep, as `find_all` descends). -/
def selFromTables (sel : SelectCore) : List String :=
  (tablesOf (walkFromList sel.fromItems) ++ tablesOf (walkJoinList sel.joins)).filterMap
    (fun p => if p.1 == "" then none else some (upperS (if p.2 != "" then p.2 else p.1)))

/-- `_resolve_unknown_columns_to_tables`: for each SELECT scope with exactly
one FROM table, unqualified columns are reassigned to that table. -/
def resolveUnknownColumnsToTables (columns : ColMap) (parsed : Stmt) : ColMap :=
  let unknown_cols := (mapFind columns "_UNKNOWN_").getD []
  if unknown_cols.isEmpty then columns
  else
    let resolved := (selectsOf (walkStmt parsed)).foldl (fun resolved sel =>
      match selFromTables sel with
      | [single] =>
          (columnsOf (walkSelect sel)).foldl (fun res pc =>
            if pc.1 == "" && decide (lowerS pc.2 ∈ unknown_cols) then
              removeFromUnknown (addColEntry res single (lowerS pc.2)) (lowerS pc.2)
            else res) resolved
      | _ => resolved) columns
    match mapFind resolved "_UNKNOWN_" with
    | some [] => resolved.filter (fun p => p.1 != "_UNKNOWN_")
    | _ => resolved

/-- The aggregate functions counted by `_has_aggregation` (note: the source
list there omits `ArrayAgg`). -/
def isCountingAgg : AggKind → Bool
  | .count | .sumA | .avgA | .minA | .maxA => true
  | .arrayAgg => false

/-- `_has_aggregation`: aggregate function anywhere, or GROUP BY, or
DISTINCT on any SELECT. -/
def hasAggregation (parsed : Stmt) : Bool :=
  (walkStmt parsed).any (fun n =>
    match n with
    | .ex (.agg k _) => isCountingAgg k
    | _ => false) ||
  (selectsOf (walkStmt parsed)).any (fun s => !s.groupBy.isEmpty) ||
  (selectsOf (walkStmt parsed)).any (fun s => s.distinct)

/-- `_get_limit_value`: the first LIMIT node whose value converts to int. -/
def getLimitValue (parsed : Stmt) : Option Int :=
  (limitsOf (walkStmt parsed)).findSome? (fun v =>
    match v with
    | .num n => some n
    | .expr _ => none)

/-! ## Schema catalog (src/app/schema_parser.py, src/app/schema_catalog.py) -/

/-- Column metadata (the fields the guard consults). -/
structure Column where
  name : String
  is_phi : Bool

/-- Table metadata: columns keyed by lowercase name. -/
structure Table where
  name : String
  columns : List (String × Column)

/-- `JoinEdge` from src/app/schema_parser.py. -/
structure JoinEdge where
  from_table : String
  from_column : String
  to_table : String
  to_column : String
  confidence : String
  rel_type : String
  source : String
  warning_from : String
  warning_to : String
deriving DecidableEq, Repr

/-- `SchemaCatalog` over a `SchemaKnowledge`: tables keyed by uppercase
name, join edges, PHI name set. -/
structure SchemaCatalog where
  tables : List (String × Table)
  join_edges : List JoinEdge
  phi_columns : List String

def SchemaCatalog.get_table (cat : SchemaCatalog) (name : String) : Option Table :=
  (cat.tables.find? (fun p => p.1 == upperS name)).map Prod.snd

def SchemaCatalog.table_exists (cat : SchemaCatalog) (name : String) : Bool :=
  (cat.tables.find? (fun p => p.1 == upperS name)).isSome

def Table.getColumn (t : Table) (cl : String) : Option Column :=
  (t.columns.find? (fun p => p.1 == cl)).map Prod.snd

def SchemaCatalog.column_exists (cat : SchemaCatalog) (tn cn : String) : Bool :=
  match cat.get_table tn with
  | none => false
  | some t => (t.columns.find? (fun p => p.1 == lowerS cn)).isSome

/-- `SchemaCatalog.validate_sql_references`: unknown tables of the query,
and unknown columns under tables that do exist. -/
def SchemaCatalog.validate_sql_references (cat : SchemaCatalog)
    (tables : List String) (columns : ColMap) : List String × List String :=
  (tables.filter (fun t => !cat.table_exists t),
   columns.foldl (fun acc p =>
     if !cat.table_exists p.1 then acc
     else acc ++ (p.2.filter (fun c => !cat.column_exists p.1 c)).map
       (fun c => p.1 ++ "." ++ c)) [])

/-! ## PHI and SELECT * checks (src/app/sql_guard.py) -/

/-- `PHI_COLUMNS` from src/app/sql_guard.py. -/
def PHI_COLUMNS : List String :=
  ["hn", "cid", "passport", "mrn", "national_id", "idcard", "pid",
   "fname", "lname", "mname", "pname", "name", "fullname",
   "firstname", "lastname", "middlename", "prename",
   "phone", "mobile", "tel", "telephone", "email", "fax",
   "address", "addrpart", "moo", "road", "tambon", "amphur",
   "province", "zipcode", "postcode", "homeaddr", "workaddr",
   "dob", "birthdate", "birthday", "bdate",
   "ssn", "social_security", "insurance_id", "member_id"]

def joinComma : List String → String
  | [] => ""
  | [x] => x
  | x :: xs => x ++ ", " ++ joinComma xs

/-- The per-column PHI test of `_check_phi_in_select`: the hardcoded PHI
name set, or (for real tables, when a catalog is given) the catalog's
`is_phi` marker. -/
def phiHit (catalog : Option SchemaCatalog) (t c : String) : Bool :=
  if lowerS c ∈ PHI_COLUMNS then true
  else
    match catalog with
    | some cat =>
        if t != "_UNKNOWN_" && t != "_STAR_" then
          match cat.get_table t with
          | some tbl =>
              match tbl.getColumn (lowerS c) with
              | some col => col.is_phi
              | none => false
          | none => false
        else false
    | none => false

/-- How a found PHI column is reported (`f"{table}.{col}"`, or the bare
column for `_UNKNOWN_`). -/
def phiName (t c : String) : String :=
  if t != "_UNKNOWN_" then t ++ "." ++ c else c

/-- `_check_phi_in_select`: PHI columns in the SELECT output, by the
hardcoded PHI name set or, for known tables, the catalog PHI marker. -/
def checkPhiInSelect (columns : ColMap) (catalog : Option SchemaCatalog) :
    Option String × List String :=
  let phi_found := columns.foldl (fun acc p =>
    p.2.foldl (fun acc c =>
      if phiHit catalog p.1 c then acc ++ [phiName p.1 c] else acc) acc)
    ([] : List String)
  if phi_found.isEmpty then (none, [])
  else (some ("PHI column(s) cannot be included in SELECT output: " ++ joinComma phi_found),
        phi_found)

/-- `_check_select_star`. -/
def checkSelectStar (columns : ColMap) : Option String :=
  columns.findSome? (fun p =>
    if "*" ∈ p.2 then
      some (if p.1 == "_STAR_"
        then "SELECT * is not allowed. Please specify explicit column names."
        else "SELECT " ++ p.1 ++ ".* is not allowed. Please specify explicit column names.")
    else none)

/-! ## Join scoring and path search (src/app/schema_catalog.py) -/

/-- `CONFIDENCE_SCORES.get(confidence, 0)`. -/
def confidenceScore (c : String) : Int :=
  if c == "high" then 100 else if c == "medium" then 50
  else if c == "heuristic" then 25 else 0

/-- `REL_TYPE_BONUSES.get(rel_type, 0)`. -/
def relTypeBonus (r : String) : Int :=
  if r == "universal" then 50 else if r == "table match" then 30
  else if r == "within_family" then 10 else if r == "heuristic_home" then -20 else 0

/-- `SchemaCatalog._score_edge`. -/
def scoreEdge (e : JoinEdge) : Int :=
  confidenceScore e.confidence + relTypeBonus e.rel_type +
  (if e.warning_from != "" || e.warning_to != "" then -30 else 0)

/-- The synthesized reverse of a join edge (joins are bidirectional). -/
def reverseEdge (e : JoinEdge) : JoinEdge :=
  { from_table := e.to_table, from_column := e.to_column,
    to_table := e.from_table, to_column := e.from_column,
    confidence := e.confidence, rel_type := e.rel_type, source := e.source,
    warning_from := e.warning_to, warning_to := e.warning_from }

/-- `SchemaCatalog._build_join_graph`, read off as an adjacency function. -/
def joinGraphNeighbors (edges : List JoinEdge) (t : String) : List JoinEdge :=
  edges.foldl (fun acc e =>
    let acc := if e.from_table == t then acc ++ [e] else acc
    if e.to_table == t then acc ++ [reverseEdge e] else acc) []

/-- `JoinStep` from src/app/schema_catalog.py. -/
structure JoinStep where
  from_table : String
  from_column : String
  to_table : String
  to_column : String
  confidence : String
  rel_type : String
  score : Int
  warning : String
deriving DecidableEq, Repr

/-- `JoinPath` from src/app/schema_catalog.py. -/
structure JoinPath where
  from_table : String
  to_table : String
  steps : List JoinStep
  total_score : Int
  warnings : List String
deriving DecidableEq, Repr

def JoinPath.hop_count (p : JoinPath) : Nat := p.steps.length

/-- Build a `JoinStep` from an edge, as `find_join_path` and
`get_direct_joins` do (`warning = e.warning_from or e.warning_to`). -/
def edgeToStep (e : JoinEdge) : JoinStep :=
  { from_table := e.from_table, from_column := e.from_column,
    to_table := e.to_table, to_column := e.to_column,
    confidence := e.confidence, rel_type := e.rel_type,
    score := scoreEdge e,
    warning := if e.warning_from != "" then e.warning_from else e.warning_to }

/-- Assemble a `JoinPath` from the edges of a found BFS path. -/
def mkJoinPath (from_upper to_upper : String) (pathEdges : List JoinEdge) : JoinPath :=
  let steps := pathEdges.map edgeToStep
  { from_table := from_upper, to_table := to_upper, steps := steps,
    total_score := (pathEdges.map scoreEdge).sum,
    warnings := steps.filterMap (fun st =>
      if st.warning != ""
      then some (st.from_table ++ "." ++ st.from_column ++ ": " ++ st.warning)
      else none) }

/-- A BFS queue entry: `(current_table, path_so_far, visited)`. -/
structure BfsEntry where
  current : String
  path : List JoinEdge
  visited : List String
deriving DecidableEq, Repr

/-- The neighbor-processing body of the BFS loop of `find_join_path`: skip
visited tables, record a found path when the target is reached, enqueue the
extended path otherwise (when still under `max_hops`). -/
def bfsStep (to_upper : String) (max_hops : Nat) (from_upper : String)
    (entry : BfsEntry) (acc : List JoinPath × List BfsEntry) (e : JoinEdge) :
    List JoinPath × List BfsEntry :=
  if e.to_table ∈ entry.visited then acc
  else if e.to_table == to_upper then
    (acc.1 ++ [mkJoinPath from_upper to_upper (entry.path ++ [e])], acc.2)
  else if (entry.path ++ [e]).length < max_hops then
    (acc.1, acc.2 ++ [{ current := e.to_table, path := entry.path ++ [e],
                        visited := entry.visited ++ [e.to_table] }])
  else acc

/-- One pass of the BFS `while queue:` loop of `find_join_path`.  The fuel
only bounds the number of iterations; it is instantiated generously and the
loop stops as soon as the queue empties. -/
def bfsLoop (graph : String → List JoinEdge) (to_upper : String) (max_hops : Nat)
    (from_upper : String) : Nat → List BfsEntry → List JoinPath → List JoinPath
  | 0, _, paths => paths
  | _ + 1, [], paths => paths
  | fuel + 1, entry :: queue, paths =>
      if entry.path.length > max_hops then
        bfsLoop graph to_upper max_hops from_upper fuel queue paths
      else
        bfsLoop graph to_upper max_hops from_upper fuel
          (queue ++ ((graph entry.current).foldl
            (bfsStep to_upper max_hops from_upper entry) (paths, [])).2)
          ((graph entry.current).foldl
            (bfsStep to_upper max_hops from_upper entry) (paths, [])).1

/-- Sort key of `find_join_path`: `(hop_count, -total_score)` ascending. -/
def pathLE (p q : JoinPath) : Prop :=
  p.hop_count < q.hop_count ∨ (p.hop_count = q.hop_count ∧ q.total_score ≤ p.total_score)

instance : DecidableRel pathLE := fun p q => by
  unfold pathLE; infer_instance

instance : IsTotal JoinPath pathLE := by
  constructor; intro a b; unfold pathLE; omega

instance : IsTrans JoinPath pathLE := by
  constructor; intro a b c; unfold pathLE; omega

/-- `SchemaCatalog.find_join_path`: all BFS paths between two tables,
sorted by `(hop_count ascending, total_score descending)`. -/
def SchemaCatalog.find_join_path (cat : SchemaCatalog)
    (from_table to_table : String) (max_hops : Nat) : List JoinPath :=
  let from_upper := upperS from_table
  let to_upper := upperS to_table
  if from_upper == to_upper then []
  else if !cat.table_exists from_upper || !cat.table_exists to_upper then []
  else
    let graph := joinGraphNeighbors cat.join_edges
    let fuel := (2 * cat.join_edges.length + 2) ^ (max_hops + 2)
    (bfsLoop graph to_upper max_hops from_upper fuel
      [{ current := from_upper, path := [], visited := [from_upper] }] []).insertionSort pathLE

/-- `SchemaCatalog.get_best_join` (default `max_hops = 3`). -/
def SchemaCatalog.get_best_join (cat : SchemaCatalog)
    (from_table to_table : String) : Option JoinPath :=
  (cat.find_join_path from_table to_table 3).head?

/-- Sort key of `get_direct_joins`: score descending. -/
def stepScoreGE (a b : JoinStep) : Prop := b.score ≤ a.score

instance : DecidableRel stepScoreGE := fun a b => by
  unfold stepScoreGE; infer_instance

instance : IsTotal JoinStep stepScoreGE := by
  constructor; intro a b; unfold stepScoreGE; omega

instance : IsTrans JoinStep stepScoreGE := by
  constructor; intro a b c; unfold stepScoreGE; omega

/-- `SchemaCatalog.get_direct_joins`. -/
def SchemaCatalog.get_direct_joins (cat : SchemaCatalog)
    (from_table to_table : String) : List JoinStep :=
  let fu := upperS from_table
  let tu := upperS to_table
  let steps := cat.join_edges.foldl (fun acc e =>
    if (e.from_table == fu && e.to_table == tu) ||
       (e.from_table == tu && e.to_table == fu)
    then acc ++ [edgeToStep e] else acc) []
  steps.insertionSort stepScoreGE

/-- `JoinValidation` from src/app/schema_catalog.py. -/
structure JoinValidation where
  valid : Bool
  confidence : String
  score : Int
  warnings : List String
  suggestion : String
deriving DecidableEq, Repr

/-- `SchemaCatalog.validate_join`. -/
def SchemaCatalog.validate_join (cat : SchemaCatalog)
    (table_a column_a table_b column_b : String) : JoinValidation :=
  let ta := upperS table_a
  let tb := upperS table_b
  let ca := lowerS column_a
  let cb := lowerS column_b
  if !cat.table_exists ta then
    { valid := false, confidence := "heuristic", score := 0,
      warnings := ["Table " ++ ta ++ " not found"], suggestion := "" }
  else if !cat.table_exists tb then
    { valid := false, confidence := "heuristic", score := 0,
      warnings := ["Table " ++ tb ++ " not found"], suggestion := "" }
  else if !cat.column_exists ta ca then
    { valid := false, confidence := "heuristic", score := 0,
      warnings := ["Column " ++ ta ++ "." ++ ca ++ " not found"], suggestion := "" }
  else if !cat.column_exists tb cb then
    { valid := false, confidence := "heuristic", score := 0,
      warnings := ["Column " ++ tb ++ "." ++ cb ++ " not found"], suggestion := "" }
  else
    match cat.join_edges.find? (fun e =>
      (e.from_table == ta && e.from_column == ca &&
       e.to_table == tb && e.to_column == cb) ||
      (e.from_table == tb && e.from_column == cb &&
       e.to_table == ta && e.to_column == ca)) with
    | some edge =>
        let score := scoreEdge edge
        if edge.warning_from != "" || edge.warning_to != "" then
          let warning := if edge.warning_from != "" then edge.warning_from else edge.warning_to
          let direct := cat.get_direct_joins ta tb
          let better := direct.filter (fun j => j.score > score && j.warning == "")
          let suggestion := match better with
            | [] => ""
            | b :: _ =>
                "Consider using " ++ b.from_table ++ "." ++ b.from_column ++ " = " ++
                b.to_table ++ "." ++ b.to_column ++ " instead (confidence: " ++
                b.confidence ++ ")"
          { valid := true, confidence := edge.confidence, score := score,
            warnings := [warning], suggestion := suggestion }
        else
          { valid := true, confidence := edge.confidence, score := score,
            warnings := [], suggestion := "" }
    | none =>
        if ca == cb then
          { valid := true, confidence := "heuristic", score := 25,
            warnings := ["This join is not in the schema. Verify manually."],
            suggestion := "" }
        else
          { valid := false, confidence := "heuristic", score := 0,
            warnings := ["No known relationship between these columns"],
            suggestion := "Check if " ++ ta ++ " and " ++ tb ++
              " can be joined via another path" }

/-! ## Join extraction and validation in the guard (src/app/sql_guard.py) -/

/-- `ExtractedJoin` from src/app/sql_guard.py. -/
structure ExtractedJoin where
  left_table : String
  left_column : String
  right_table : String
  right_column : String
deriving DecidableEq, Repr

/-- `JoinWarning` from src/app/sql_guard.py. -/
structure JoinWarning where
  from_table : String
  from_column : String
  to_table : String
  to_column : String
  confidence : String
  message : String
  suggested_alternative : Option String
deriving DecidableEq, Repr

/-- `_extract_eq_joins`: `t1.c1 = t2.c2` equalities (descending through
AND), both sides qualified, resolving aliases, different tables only. -/
def extractEqJoins (aliases : List (String × String)) :
    SqlExpr → List ExtractedJoin → List ExtractedJoin
  | .eqE (.column lt ln) (.column rt rn), js =>
      if lt != "" && rt != "" then
        let ltab := aliasGet aliases (upperS lt)
        let rtab := aliasGet aliases (upperS rt)
        if ltab != rtab then
          js ++ [{ left_table := ltab, left_column := lowerS ln,
                   right_table := rtab, right_column := lowerS rn }]
        else js
      else js
  | .eqE _ _, js => js
  | .andE l r, js => extractEqJoins aliases r (extractEqJoins aliases l js)
  | _, js => js

/-- `_extract_joins`: equalities from every JOIN … ON, then from every
WHERE clause. -/
def extractJoins (parsed : Stmt) (aliases : List (String × String)) :
    List ExtractedJoin :=
  let joinNodes := (walkStmt parsed).filterMap (fun n =>
    match n with
    | .jitem j => some j
    | _ => none)
  let js := joinNodes.foldl (fun acc j =>
    match j with
    | .mk _ (some onc) => extractEqJoins aliases onc acc
    | .mk _ none => acc) []
  (selectsOf (walkStmt parsed)).foldl (fun acc sel =>
    match sel.whereCond with
    | some w => extractEqJoins aliases w acc
    | none => acc) js

/-- `_validate_joins`: per-join warnings from the catalog validator. -/
def validateJoins (joins : List ExtractedJoin) (cat : SchemaCatalog) :
    List JoinWarning :=
  joins.foldl (fun ws j =>
    let validation := cat.validate_join j.left_table j.left_column j.right_table j.right_column
    let ws :=
      if validation.confidence == "heuristic" then
        let best := cat.get_best_join j.left_table j.right_table
        let suggested : Option String :=
          match best with
          | some p =>
              if p.total_score > 25 then
                match p.steps with
                | st :: _ => some (st.from_table ++ "." ++ st.from_column ++ " = " ++
                    st.to_table ++ "." ++ st.to_column)
                | [] => none
              else none
          | none => none
        ws ++ [{ from_table := j.left_table, from_column := j.left_column,
                 to_table := j.right_table, to_column := j.right_column,
                 confidence := "heuristic",
                 message := "Low confidence join - consider using a verified join path",
                 suggested_alternative := suggested }]
      else ws
    let ws := ws ++ validation.warnings.map (fun w =>
      { from_table := j.left_table, from_column := j.left_column,
        to_table := j.right_table, to_column := j.right_column,
        confidence := validation.confidence, message := w,
        suggested_alternative := none })
    if !validation.valid then
      ws ++ [{ from_table := j.left_table, from_column := j.left_column,
               to_table := j.right_table, to_column := j.right_column,
               confidence := "unknown", message := "Join not found in schema catalog",
               suggested_alternative := none }]
    else ws) []

/-- `String.startswith` on the character level (kernel-reducible). -/
def strStartsWith (p s : String) : Bool := startsWithChars p.data s.data

/-- The readable-warning loop of validate_sql layer 8 (deduplicated). -/
def joinWarningMessages (jws : List JoinWarning) (warnings : List String) :
    List String :=
  (jws.foldl (fun (acc : List String × List String) jw =>
    if jw.confidence == "heuristic" && strStartsWith "Low confidence" jw.message then
      let msg0 := "Low-confidence join: " ++ jw.from_table ++ "." ++ jw.from_column ++
        " = " ++ jw.to_table ++ "." ++ jw.to_column
      let msg := match jw.suggested_alternative with
        | some sug => msg0 ++ " (consider: " ++ sug ++ ")"
        | none => msg0
      if msg ∈ acc.2 then acc else (acc.1 ++ [msg], acc.2 ++ [msg])
    else if jw.confidence == "unknown" then
      let msg := "Unverified join: " ++ jw.from_table ++ "." ++ jw.from_column ++
        " = " ++ jw.to_table ++ "." ++ jw.to_column
      if msg ∈ acc.2 then acc else (acc.1 ++ [msg], acc.2 ++ [msg])
    else if jw.message != "" then
      let msg := "Join warning (" ++ jw.from_table ++ "." ++ jw.from_column ++ "): " ++
        jw.message
      if msg ∈ acc.2 then acc else (acc.1 ++ [msg], acc.2 ++ [msg])
    else acc) (warnings, [])).1

/-! ## validate_sql and guard_sql (src/app/sql_guard.py) -/

/-- `ValidationResult` from src/app/sql_guard.py. -/
structure ValidationResult where
  valid : Bool
  error : Option String := none
  error_type : Option String := none
  tables_used : Option (List String) := none
  columns_used : Option ColMap := none
  all_columns : Option ColMap := none
  has_aggregation : Bool := false
  has_limit : Bool := false
  limit_value : Option Int := none
  phi_columns_found : List String := []
  warnings : List String := []
  join_warnings : List JoinWarning := []
deriving DecidableEq, Repr

/-- Layer 3 of validate_sql: a plain SELECT, a set operation, or a wrapper
whose body is a SELECT. -/
def isValidSelect : Stmt → Bool
  | .select _ => true
  | .union _ _ => true
  | .wrap _ (.select _) => true
  | .wrap _ _ => false
  | .other _ => false

/-- The SELECT-exposed column map after alias resolution and unknown-column
attribution, as validate_sql computes it. -/
def selectColumnsResolved (p : Stmt) : ColMap :=
  resolveUnknownColumnsToTables
    (resolveColumnTables (extractOutputColumns p) (extractTableAliases p)) p

/-- The all-referenced column map after alias resolution and unknown-column
attribution. -/
def allColumnsResolved (p : Stmt) : ColMap :=
  resolveUnknownColumnsToTables
    (resolveColumnTables (extractAllColumns p) (extractTableAliases p)) p

/-- `columns_for_validation`: the resolved columns handed to the catalog,
dropping the `_UNKNOWN_` and `_STAR_` pseudo-tables. -/
def columnsForValidation (p : Stmt) : ColMap :=
  (allColumnsResolved p).foldl (fun acc q =>
    if q.1 != "_UNKNOWN_" && q.1 != "_STAR_"
    then acc ++ [(upperS q.1, q.2)] else acc) []

/-- Layer 6 in strict mode: the failure result, if any. -/
def strictCatalogFailure (cat : SchemaCatalog) (p : Stmt) : Option ValidationResult :=
  let refs := cat.validate_sql_references (extractTables p) (columnsForValidation p)
  if !refs.1.isEmpty then
    some { valid := false,
           error := some ("Unknown table(s): " ++ joinComma refs.1),
           error_type := some "UnknownTableError",
           tables_used := some (extractTables p),
           all_columns := some (allColumnsResolved p) }
  else if !refs.2.isEmpty then
    some { valid := false,
           error := some ("Unknown column(s): " ++ joinComma refs.2),
           error_type := some "UnknownColumnError",
           tables_used := some (extractTables p),
           all_columns := some (allColumnsResolved p) }
  else none

/-- Layer 6 in non-strict mode: unknown tables become warnings. -/
def nonStrictCatalogWarnings (cat : SchemaCatalog) (p : Stmt) : List String :=
  ((extractTables p).filter (fun t => !cat.table_exists t)).map
    (fun t => "Table " ++ "'" ++ t ++ "'" ++ " not found in catalog")

/-- Layer 8: join warnings and the readable warning list. -/
def guardJoinOutcome (catalog : Option SchemaCatalog) (validate_joins : Bool)
    (p : Stmt) (warnings : List String) : List JoinWarning × List String :=
  match catalog with
  | some cat =>
      if validate_joins then
        let extracted_joins := extractJoins p (extractTableAliases p)
        if !extracted_joins.isEmpty then
          let jws := validateJoins extracted_joins cat
          (jws, joinWarningMessages jws warnings)
        else ([], warnings)
      else ([], warnings)
  | none => ([], warnings)

/-- The `warnings` list accumulated before layer 8 (empty except in
non-strict mode with a catalog). -/
def baselineWarnings (catalog : Option SchemaCatalog) (strict : Bool) (p : Stmt) :
    List String :=
  match catalog with
  | some cat => if strict then [] else nonStrictCatalogWarnings cat p
  | none => []

/-- `validate_sql` from src/app/sql_guard.py.  The sqlglot parse is an
explicit argument: `none` models a `ParseError` of `sqlglot.parse_one`,
`some p` a successful parse of the (single) statement. -/
def validateSql (sql : String) (parsed : Option Stmt) (catalog : Option SchemaCatalog)
    (max_rows : Int) (strict_catalog_check : Bool) (validate_joins : Bool) :
    ValidationResult :=
  match quickKeywordCheck sql with
  | some kwError =>
      { valid := false, error := some kwError,
        error_type := some "ForbiddenKeywordError" }
  | none =>
  match parsed with
  | none =>
      { valid := false, error := some "SQL parse error",
        error_type := some "SQLParseError" }
  | some p =>
  if !isValidSelect p then
    { valid := false,
      error := some ("Only SELECT statements are allowed. Got: " ++ p.kindName),
      error_type := some "ForbiddenStatementError" }
  else
    match checkSelectStar (extractOutputColumns p) with
    | some star_error =>
        { valid := false, error := some star_error,
          error_type := some "SelectStarError",
          tables_used := some (extractTables p) }
    | none =>
    match checkPhiInSelect (selectColumnsResolved p) catalog with
    | (some phi_error, phi_found) =>
        { valid := false, error := some phi_error,
          error_type := some "PHIExposureError",
          tables_used := some (extractTables p),
          phi_columns_found := phi_found }
    | (none, _) =>
    match (match catalog with
           | some cat => if strict_catalog_check then strictCatalogFailure cat p else none
           | none => none) with
    | some failure => failure
    | none =>
    if !hasAggregation p && getLimitValue p == none then
      { valid := false,
        error := some ("Non-aggregate queries must include LIMIT (max " ++
          toString max_rows ++ " rows)"),
        error_type := some "MissingLimitError",
        tables_used := some (extractTables p),
        columns_used := some (selectColumnsResolved p),
        all_columns := some (allColumnsResolved p),
        has_aggregation := hasAggregation p,
        warnings := baselineWarnings catalog strict_catalog_check p }
    else if !hasAggregation p && (match getLimitValue p with
        | some v => v > max_rows
        | none => false) then
      { valid := false,
        error := some ("LIMIT " ++ toString ((getLimitValue p).getD 0) ++
          " exceeds maximum allowed (" ++ toString max_rows ++ ")"),
        error_type := some "MissingLimitError",
        tables_used := some (extractTables p),
        columns_used := some (selectColumnsResolved p),
        all_columns := some (allColumnsResolved p),
        has_aggregation := hasAggregation p, has_limit := true,
        limit_value := getLimitValue p,
        warnings := baselineWarnings catalog strict_catalog_check p }
    else
      { valid := true, tables_used := some (extractTables p),
        columns_used := some (selectColumnsResolved p),
        all_columns := some (allColumnsResolved p),
        has_aggregation := hasAggregation p,
        has_limit := (getLimitValue p).isSome,
        limit_value := getLimitValue p,
        warnings := (guardJoinOutcome catalog validate_joins p
          (baselineWarnings catalog strict_catalog_check p)).2,
        join_warnings := (guardJoinOutcome catalog validate_joins p
          (baselineWarnings catalog strict_catalog_check p)).1 }

/-- The `SQLGuardError` exception hierarchy of src/app/sql_guard.py, with
the message the exception carries. -/
inductive GuardError where
  | forbiddenKeyword (msg : String)
  | forbiddenStatement (msg : String)
  | sqlParse (msg : String)
  | selectStar (msg : String)
  | phiExposure (msg : String)
  | unknownTable (msg : String)
  | unknownColumn (msg : String)
  | missingLimit (msg : String)
  | base (msg : String)
deriving DecidableEq, Repr

/-- `type(error).__name__` of a guard error. -/
def GuardError.className : GuardError → String
  | .forbiddenKeyword _ => "ForbiddenKeywordError"
  | .forbiddenStatement _ => "ForbiddenStatementError"
  | .sqlParse _ => "SQLParseError"
  | .selectStar _ => "SelectStarError"
  | .phiExposure _ => "PHIExposureError"
  | .unknownTable _ => "UnknownTableError"
  | .unknownColumn _ => "UnknownColumnError"
  | .missingLimit _ => "MissingLimitError"
  | .base _ => "SQLGuardError"

/-- `error_classes.get(result.error_type, SQLGuardError)` applied to the
result's error message. -/
def errorClassFor (ty : Option String) (msg : String) : GuardError :=
  match ty with
  | some "ForbiddenKeywordError" => .forbiddenKeyword msg
  | some "ForbiddenStatementError" => .forbiddenStatement msg
  | some "SQLParseError" => .sqlParse msg
  | some "SelectStarError" => .selectStar msg
  | some "PHIExposureError" => .phiExposure msg
  | some "UnknownTableError" => .unknownTable msg
  | some "UnknownColumnError" => .unknownColumn msg
  | some "MissingLimitError" => .missingLimit msg
  | _ => .base msg

/-- `guard_sql`: return the SQL unchanged when valid, otherwise raise the
guard-error subclass selected by the result's `error_type`. -/
def guardSql (sql : String) (parsed : Option Stmt) (catalog : Option SchemaCatalog)
    (max_rows : Int) (strict_catalog_check : Bool) (validate_joins : Bool) :
    Except GuardError String :=
  let result := validateSql sql parsed catalog max_rows strict_catalog_check validate_joins
  if result.valid then .ok sql
  else .error (errorClassFor result.error_type (result.error.getD ""))

/-! ## Guarded executor (src/app/db.py, `Database.execute_query`) -/

/-- A SQL value: NULL or a number (the checks and claims only need
numeric comparison and NULL-ness). -/
abbrev SqlVal := Option Int

/-- A cursor row under the `dict_row` factory: column name → value, in the
declared column order. -/
abbrev DictRow := List (String × SqlVal)

/-- `QueryResult` from src/app/models.py (`execution_time_ms` is wall-clock
time, fixed to 0 in the model). -/
structure QueryResult where
  columns : List String
  rows : List (List SqlVal)
  row_count : Nat
  truncated : Bool
  execution_time_ms : Int
deriving DecidableEq, Repr

/-- `max_rows = max_rows or settings.sql_max_rows` (Python falsy `or`). -/
def effectiveMaxRows (arg : Option Nat) (settingsDefault : Nat) : Nat :=
  match arg with
  | none => settingsDefault
  | some 0 => settingsDefault
  | some n => n

/-! The pure core of `Database.execute_query`: the cursor has produced the
stream `cursorRows` and the column description `description`; fetch
`max_rows + 1` (`fetchedRows`), detect truncation, drop the extra row
(`keptRows`), reproject rows positionally (`executeQuery`). -/

/-- `cur.fetchmany(max_rows + 1)`. -/
def fetchedRows (cursorRows : List DictRow) (max_rows : Nat) : List DictRow :=
  cursorRows.take (max_rows + 1)

/-- `rows_raw[:max_rows]` when one extra row was fetched. -/
def keptRows (cursorRows : List DictRow) (max_rows : Nat) : List DictRow :=
  if (fetchedRows cursorRows max_rows).length > max_rows
  then (fetchedRows cursorRows max_rows).take max_rows
  else fetchedRows cursorRows max_rows

def executeQuery (cursorRows : List DictRow) (description : List String)
    (max_rows : Nat) : QueryResult :=
  { columns := description,
    rows := (keptRows cursorRows max_rows).map (fun r => r.map Prod.snd),
    row_count := ((keptRows cursorRows max_rows).map (fun r => r.map Prod.snd)).length,
    truncated := decide ((fetchedRows cursorRows max_rows).length > max_rows),
    execution_time_ms := 0 }

/-- `Database.execute_query` including the `or`-defaulting of `max_rows`. -/
def databaseExecuteQuery (cursorRows : List DictRow) (description : List String)
    (max_rows_arg : Option Nat) (settings_max_rows : Nat) : QueryResult :=
  executeQuery cursorRows description (effectiveMaxRows max_rows_arg settings_max_rows)

/-! ## Sanity checks (src/app/validators.py) -/

/-- `SanityCheckResult` from src/app/models.py. -/
structure SanityCheckResult where
  check_name : String
  passed : Bool
  message : String
deriving DecidableEq, Repr

/-- Python substring containment `sub in s`. -/
def containsChars (sub : List Char) : List Char → Bool
  | [] => sub.isEmpty
  | c :: cs => startsWithChars sub (c :: cs) || containsChars sub cs

def strContains (sub s : String) : Bool := containsChars sub.data s.data

/-- First index whose column name satisfies `pred` (the `for i, col in
enumerate(...)` + `break` pattern). -/
def findColIdx (pred : String → Bool) : List String → Nat → Option Nat
  | [], _ => none
  | c :: cs, i => if pred c then some i else findColIdx pred cs (i + 1)

/-- The row loop of `check_percent_range`; `row[col_idx]` out of range
models the caught `IndexError` (the `except` branch fails the check). -/
def checkRowsPercent (rows : List (List SqlVal)) (i : Nat) (mn mx : Int) :
    SanityCheckResult :=
  match rows with
  | [] =>
      { check_name := "percent_range_check", passed := true,
        message := "All percentage values within [" ++ toString mn ++ ", " ++
          toString mx ++ "]" }
  | row :: rest =>
      match row.get? i with
      | none =>
          { check_name := "percent_range_check", passed := false,
            message := "Check failed with error: list index out of range" }
      | some none => checkRowsPercent rest i mn mx
      | some (some v) =>
          if v < mn || v > mx then
            { check_name := "percent_range_check", passed := false,
              message := "Percentage value (" ++ toString v ++ ") outside range [" ++
                toString mn ++ ", " ++ toString mx ++ "]" }
          else checkRowsPercent rest i mn mx

/-- `check_percent_range` from src/app/validators.py: finds the FIRST
column whose name contains `column_name` (case-insensitive substring) and
range-checks the non-null values of that column only. -/
def checkPercentRange (result : QueryResult) (column_name : String)
    (min_val max_val : Int) : SanityCheckResult :=
  match findColIdx
      (fun col => containsChars (lowerS column_name).data (lowerS col).data)
      result.columns 0 with
  | none =>
      { check_name := "percent_range_check", passed := true,
        message := "No percentage column found, skipping check" }
  | some col_idx => checkRowsPercent result.rows col_idx min_val max_val

/-- The row loop of `check_denominator`. -/
def checkRowsDenominator (rows : List (List SqlVal)) (i : Nat)
    (column_name : String) : SanityCheckResult :=
  match rows with
  | [] =>
      { check_name := "denominator_check", passed := true,
        message := "All denominator values are positive" }
  | row :: rest =>
      match row.get? i with
      | none =>
          { check_name := "denominator_check", passed := false,
            message := "Check failed with error: list index out of range" }
      | some none => checkRowsDenominator rest i column_name
      | some (some v) =>
          if v ≤ 0 then
            { check_name := "denominator_check", passed := false,
              message := "Found non-positive value (" ++ toString v ++ ") in " ++
                column_name }
          else checkRowsDenominator rest i column_name

/-- `check_denominator` (exact case-insensitive column-name match). -/
def checkDenominator (result : QueryResult) (column_name : String) :
    SanityCheckResult :=
  match findColIdx (fun col => lowerS col == lowerS column_name) result.columns 0 with
  | none =>
      { check_name := "denominator_check", passed := true,
        message := "Column " ++ "'" ++ column_name ++ "'" ++ " not found, skipping check" }
  | some i => checkRowsDenominator result.rows i column_name

/-- `check_non_empty`. -/
def checkNonEmpty (result : QueryResult) : SanityCheckResult :=
  if result.row_count == 0 then
    { check_name := "non_empty_check", passed := false,
      message := "Query returned no results" }
  else
    { check_name := "non_empty_check", passed := true,
      message := "Query returned " ++ toString result.row_count ++ " rows" }

/-- Python `str(list_of_strings)`. -/
def pyStrOfList (l : List String) : String :=
  "[" ++ joinComma (l.map (fun x => "'" ++ x ++ "'")) ++ "]"

/-- `run_sanity_checks`: non-empty always; denominator and percent when
`check_names` is None or its `str(...)` contains the respective word. -/
def runSanityChecks (result : QueryResult) (check_names : Option (List String)) :
    List SanityCheckResult :=
  let results := [checkNonEmpty result]
  let results :=
    if check_names.isNone || strContains "denominator" (pyStrOfList (check_names.getD []))
    then results ++ [checkDenominator result "count"] else results
  if check_names.isNone || strContains "percent" (pyStrOfList (check_names.getD []))
  then results ++ [checkPercentRange result "percent" 0 100] else results

/-! ## Chat orchestrator (src/app/chat.py) and role filter (src/app/main.py) -/

/-- `SQLGenerationResponse` (the fields the orchestrator reads). -/
structure SQLGenerationResponse where
  needs_clarification : Bool
  clarification_question : Option String
  assumptions : List String
  concepts_used : List String
  sql : String
  validation_checks : List String
  confidence : String
deriving DecidableEq, Repr

/-- `ChatResponse` from src/app/models.py. -/
structure ChatResponse where
  session_id : String
  answer : String
  sql : Option String := none
  assumptions : List String := []
  concepts_used : List String := []
  confidence : String := "medium"
  sanity_checks : List SanityCheckResult := []
  query_result : Option QueryResult := none
  error : Option String := none
  needs_clarification : Bool := false
  clarification_question : Option String := none
deriving DecidableEq, Repr

/-- The orchestrator's environment: the collaborators `_process_question`
calls out to.  `parse` is the sqlglot parse (shared with `validateSql`),
`execute` the guarded executor (`Except` for the caught exception), and
`formatAnswer` the LLM answer formatter. -/
structure OrchEnv where
  parse : String → Option Stmt
  catalog : Option SchemaCatalog
  max_rows : Int
  execute : String → Except String QueryResult
  formatAnswer : String → String → QueryResult → String

/-- Observable trace of one `_process_question` run: the SQL strings passed
to `db.execute_query`, and how many times `_retry_with_error` was invoked. -/
structure OrchTrace where
  executed : List String
  retries : Nat
deriving DecidableEq, Repr

/-- `ChatOrchestrator._format_answer`: LLM answer, plus warnings for failed
sanity checks, plus truncation note. -/
def formatAnswerFull (env : OrchEnv) (question sql : String) (result : QueryResult)
    (failed_checks : List SanityCheckResult) : String :=
  let answer := env.formatAnswer question sql result
  let answer :=
    if !failed_checks.isEmpty then
      answer ++ "\n\n⚠️ **Note**: Some data validation checks raised concerns:\n" ++
        String.join (failed_checks.map (fun c => "- " ++ c.message ++ "\n"))
    else answer
  if result.truncated then
    answer ++ "\n\n*Note: Results were limited to " ++ toString result.row_count ++ " rows.*"
  else answer

/-- Steps 5–7 of `_process_question`: execute the validated SQL, run the
sanity checks, format the answer (`r` is the retry count so far). -/
def executeAndRespond (env : OrchEnv) (session_id question sqlFinal : String)
    (genFinal : SQLGenerationResponse) (r : Nat) : ChatResponse × OrchTrace :=
  match env.execute sqlFinal with
  | .error e =>
      ({ session_id := session_id,
         answer := "I couldn't execute the query. Error: " ++ e,
         sql := some sqlFinal, error := some e,
         assumptions := genFinal.assumptions,
         concepts_used := genFinal.concepts_used, confidence := "low" },
       { executed := [sqlFinal], retries := r })
  | .ok result =>
      ({ session_id := session_id,
         answer := formatAnswerFull env question sqlFinal result
           ((runSanityChecks result (some genFinal.validation_checks)).filter
             (fun c => !c.passed)),
         sql := some sqlFinal,
         assumptions := genFinal.assumptions,
         concepts_used := genFinal.concepts_used,
         confidence := genFinal.confidence,
         sanity_checks := runSanityChecks result (some genFinal.validation_checks),
         query_result := some result },
       { executed := [sqlFinal], retries := r })

/-- The user-visible failure after a failed validation whose retry also
failed (or produced nothing): the SQL is not executed. -/
def guardFailureResponse (session_id : String) (gen : SQLGenerationResponse)
    (validation : ValidationResult) (r : Nat) : ChatResponse × OrchTrace :=
  ({ session_id := session_id,
     answer := "I couldn't generate a safe SQL query. Error: " ++
       (validation.error.getD "Unknown error"),
     sql := some gen.sql, error := validation.error,
     assumptions := gen.assumptions, confidence := "low" },
   { executed := [], retries := r })

/-- `ChatOrchestrator._process_question`: generate → validate (strict) →
retry once on failure → execute → sanity-check → format.  `gen` is the
first LLM response, `retryGen` what `_retry_with_error` returns (`none`
models its caught exception / missing retry). -/
def processQuestion (env : OrchEnv) (session_id question : String)
    (gen : SQLGenerationResponse) (retryGen : Option SQLGenerationResponse) :
    ChatResponse × OrchTrace :=
  if gen.needs_clarification then
    ({ session_id := session_id,
       answer := gen.clarification_question.getD "Could you please clarify your question?",
       needs_clarification := true,
       clarification_question := gen.clarification_question,
       assumptions := gen.assumptions, confidence := gen.confidence },
     { executed := [], retries := 0 })
  else if gen.sql == "" then
    ({ session_id := session_id,
       answer := "I couldn't generate a SQL query for your question. Could you rephrase it?",
       error := some "No SQL generated", confidence := "low" },
     { executed := [], retries := 0 })
  else if (validateSql gen.sql (env.parse gen.sql) env.catalog env.max_rows true true).valid then
    executeAndRespond env session_id question gen.sql gen 0
  else
    match retryGen with
    | some rr =>
        if (validateSql rr.sql (env.parse rr.sql) env.catalog env.max_rows true true).valid then
          executeAndRespond env session_id question rr.sql rr 1
        else
          guardFailureResponse session_id gen
            (validateSql gen.sql (env.parse gen.sql) env.catalog env.max_rows true true) 1
    | none =>
        guardFailureResponse session_id gen
          (validateSql gen.sql (env.parse gen.sql) env.catalog env.max_rows true true) 1

/-- A session message (src/app/models.py `Message`; the `sql` metadata the
orchestrator attaches). -/
structure SessionMessage where
  role : String
  content : String
  sql : Option String
deriving DecidableEq, Repr

/-- `ChatOrchestrator.handle_message`: append the user message, process the
question, append the assistant message (with the SQL of the un-redacted
response), return the response. -/
def handleMessage (env : OrchEnv) (session : List SessionMessage)
    (session_id question : String) (gen : SQLGenerationResponse)
    (retryGen : Option SQLGenerationResponse) :
    ChatResponse × List SessionMessage × OrchTrace :=
  let session := session ++ [{ role := "user", content := question, sql := none }]
  let pr := processQuestion env session_id question gen retryGen
  let session := session ++
    [{ role := "assistant", content := pr.1.answer, sql := pr.1.sql }]
  (pr.1, session, pr.2)

/-- The role filter of the `/api/chat` endpoint (src/app/main.py): strip
`sql`, `query_result` and `sanity_checks` for non-`super_user` callers. -/
def stripForRole (role : String) (response : ChatResponse) : ChatResponse :=
  if role != "super_user" then
    { response with sql := none, query_result := none, sanity_checks := [] }
  else response

/-- The `/api/chat` endpoint body: orchestrate, then redact by role.  The
session mutation happens inside `handle_message`, before the redaction. -/
def chatEndpoint (env : OrchEnv) (role : String) (session : List SessionMessage)
    (session_id question : String) (gen : SQLGenerationResponse)
    (retryGen : Option SQLGenerationResponse) :
    ChatResponse × List SessionMessage × OrchTrace :=
  let hm := handleMessage env session session_id question gen retryGen
  (stripForRole role hm.1, hm.2.1, hm.2.2)

/-! ## Example fixtures (a small concrete catalog and statements, used by
the concrete parts of the theorems and by the witnesses) -/

def exOvst : Table :=
  { name := "OVST",
    columns := [("vn", { name := "vn", is_phi := false }),
                ("vstdate", { name := "vstdate", is_phi := false }),
                ("cliniclct", { name := "cliniclct", is_phi := false }),
                ("hn", { name := "hn", is_phi := true })] }

def exPt : Table :=
  { name := "PT", columns := [("hn", { name := "hn", is_phi := true })] }

def exCatalog : SchemaCatalog :=
  { tables := [("OVST", exOvst), ("PT", exPt)], join_edges := [],
    phi_columns := PHI_COLUMNS }

/-- `SELECT hn FROM ovst LIMIT 10`. -/
def stmtSelectHn : Stmt :=
  .select (.mk false [.column "" "hn"] [.table "ovst" ""] [] none [] (some (.num 10)))

/-- `SELECT COUNT(DISTINCT hn) AS n FROM ovst`. -/
def stmtCountDistinctHn : Stmt :=
  .select (.mk false [.node "Alias" [.agg .count [.node "Distinct" [.column "" "hn"]]]]
    [.table "ovst" ""] [] none [] none)

/-- `SELECT vn, vstdate FROM ovst` (optionally with a LIMIT). -/
def stmtVn (lim : Option LimitVal) : Stmt :=
  .select (.mk false [.column "" "vn", .column "" "vstdate"]
    [.table "ovst" ""] [] none [] lim)

/-- `SELECT COUNT(*) FROM ovst`. -/
def stmtCountStar : Stmt :=
  .select (.mk false [.agg .count [.star ""]] [.table "ovst" ""] [] none [] none)

/-! ## Helper lemmas -/

/-- The eight guard error kinds. -/
def GUARD_ERROR_TYPES : List String :=
  ["ForbiddenKeywordError", "ForbiddenStatementError", "SQLParseError",
   "SelectStarError", "PHIExposureError", "UnknownTableError",
   "UnknownColumnError", "MissingLimitError"]

/-! Orchestrator fixtures. -/

def exResult : QueryResult :=
  { columns := ["vn"], rows := [[some 1]], row_count := 1, truncated := false,
    execution_time_ms := 0 }

def exEnv : OrchEnv :=
  { parse := fun _ => some (stmtVn (some (.num 100))),
    catalog := some exCatalog, max_rows := 2000,
    execute := fun _ => .ok exResult,
    formatAnswer := fun _ _ _ => "answer" }

def exGen : SQLGenerationResponse :=
  { needs_clarification := false, clarification_question := none, assumptions := [],
    concepts_used := [], sql := "SELECT vn, vstdate FROM ovst LIMIT 100",
    validation_checks := [], confidence := "high" }

/-- An environment whose parse yields the PHI-exposing statement. -/
def exEnvBad : OrchEnv :=
  { parse := fun _ => some stmtSelectHn,
    catalog := some exCatalog, max_rows := 2000,
    execute := fun _ => .ok exResult,
    formatAnswer := fun _ _ _ => "answer" }

def exGenBad : SQLGenerationResponse :=
  { needs_clarification := false, clarification_question := none, assumptions := [],
    concepts_used := [], sql := "SELECT hn FROM ovst LIMIT 10",
    validation_checks := [], confidence := "high" }

/-- Two percent-named columns; the second has an out-of-range value. -/
def percentTwoCols : QueryResult :=
  { columns := ["percent_a", "percent_b"], rows := [[some 50, some 200]],
    row_count := 1, truncated := false, execution_time_ms := 0 }

/-- A result whose only percent column holds 150. -/
def percentOneBad : QueryResult :=
  { columns := ["percent"], rows := [[some 150]], row_count := 1,
    truncated := false, execution_time_ms := 0 }

/-! C8 fixtures: a two-table catalog with one high-confidence edge. -/

def cexEdge : JoinEdge :=
  { from_table := "A", from_column := "k", to_table := "B", to_column := "k",
    confidence := "high", rel_type := "universal", source := "fk",
    warning_from := "", warning_to := "" }

def cexCatalog : SchemaCatalog :=
  { tables := [("A", { name := "A", columns := [("k", { name := "k", is_phi := false })] }),
               ("B", { name := "B", columns := [("k", { name := "k", is_phi := false })] })],
    join_edges := [cexEdge], phi_columns := [] }

/-- Invariant of BFS queue entries: the visited list is the start table
followed by the path's target tables, without duplicates, and the path is
strictly below `max_hops` long (or still empty, for the initial entry). -/
def EntryOK (fu : String) (mh : Nat) (en : BfsEntry) : Prop :=
  (en.path.length < mh ∨ en.path = []) ∧
  en.visited = fu :: en.path.map JoinEdge.to_table ∧
  en.visited.Nodup

/-- Invariant of found paths: built by `mkJoinPath` from at most
`max max_hops 1` graph edges visiting pairwise-distinct tables. -/
def PathOK (fu tu : String) (mh : Nat) (p : JoinPath) : Prop :=
  ∃ es, p = mkJoinPath fu tu es ∧ es.length ≤ max mh 1 ∧
    (fu :: es.map JoinEdge.to_table).Nodup

/-! ## Theorems -/

/-- A strict-mode catalog failure is never a valid result. -/
theorem strictCatalogFailure_valid_false (cat : SchemaCatalog) (p : Stmt)
    (r : ValidationResult) (h : strictCatalogFailure cat p = some r) :
    r.valid = false := by
  simp only [strictCatalogFailure] at h
  split at h
  · injection h with h2; rw [← h2]
  · split at h
    · injection h with h2; rw [← h2]
    · exact absurd h (by simp)

/-- Anatomy of a successful validation: every layer of validate_sql must
have passed. -/
theorem validateSql_valid_elim (sql : String) (parsed : Option Stmt)
    (catalog : Option SchemaCatalog) (max_rows : Int) (strict vj : Bool)
    (h : (validateSql sql parsed catalog max_rows strict vj).valid = true) :
    quickKeywordCheck sql = none ∧
    ∃ p, parsed = some p ∧ isValidSelect p = true ∧
      checkSelectStar (extractOutputColumns p) = none ∧
      (checkPhiInSelect (selectColumnsResolved p) catalog).1 = none ∧
      (∀ cat, catalog = some cat → strict = true → strictCatalogFailure cat p = none) ∧
      (hasAggregation p = false →
        ∃ v, getLimitValue p = some v ∧ v ≤ max_rows) := by
  cases parsed with
  | none => unfold validateSql at h; split at h <;> simp_all
  | some p =>
  unfold validateSql at h
  cases hkw : quickKeywordCheck sql with
  | some e => rw [hkw] at h; simp only [] at h; exact absurd h (by simp)
  | none =>
  rw [hkw] at h
  simp only [] at h
  cases hsel : isValidSelect p with
  | false => rw [hsel] at h; simp at h
  | true =>
  rw [hsel] at h
  simp only [Bool.not_true, Bool.false_eq_true, if_false] at h
  cases hstar : checkSelectStar (extractOutputColumns p) with
  | some e => rw [hstar] at h; simp at h
  | none =>
  rw [hstar] at h
  simp only [] at h
  cases hphi : checkPhiInSelect (selectColumnsResolved p) catalog with
  | mk ophi found =>
  rw [hphi] at h
  cases ophi with
  | some e => simp at h
  | none =>
  simp only [] at h
  cases hcat : (match catalog with
      | some cat => if strict = true then strictCatalogFailure cat p else none
      | none => none) with
  | some failure =>
      rw [hcat] at h
      simp only [] at h
      rcases catalog with _ | cat
      · exact absurd hcat (by simp)
      · simp only [] at hcat
        by_cases hs : strict = true
        · rw [if_pos hs] at hcat
          have hv := strictCatalogFailure_valid_false cat p failure hcat
          rw [hv] at h
          exact absurd h (by simp)
        · rw [if_neg hs] at hcat
          exact absurd hcat (by simp)
  | none =>
  rw [hcat] at h
  simp only [] at h
  refine ⟨rfl, p, rfl, hsel, hstar, ?_, ?_, ?_⟩
  · rw [hphi]
  · intro cat hceq hs
    subst hceq
    simp only [] at hcat
    rw [if_pos hs] at hcat
    exact hcat
  · intro hagg
    rw [hagg] at h
    simp only [Bool.not_false, Bool.true_and] at h
    cases hlv : getLimitValue p with
    | none => rw [hlv] at h; simp at h
    | some v =>
        rw [hlv] at h
        rw [show ((some v == (none : Option Int)) = false) from rfl] at h
        simp only [Bool.false_eq_true, if_false] at h
        refine ⟨v, rfl, ?_⟩
        by_cases hgt : v > max_rows
        · rw [if_pos (by simpa using hgt)] at h
          simp at h
        · omega

/-- Exhausting the inner fold of `checkPhiInSelect`. -/
theorem phi_inner_fold_eq_nil (catalog : Option SchemaCatalog) (t : String) :
    ∀ (cs : List String) (acc : List String),
      (cs.foldl (fun acc c =>
        if phiHit catalog t c then acc ++ [phiName t c] else acc) acc) = [] →
      acc = [] ∧ ∀ c ∈ cs, phiHit catalog t c = false := by
  intro cs
  induction cs with
  | nil => intro acc h; exact ⟨h, by simp⟩
  | cons c rest ih =>
    intro acc h
    simp only [List.foldl_cons] at h
    obtain ⟨h1, h2⟩ := ih _ h
    by_cases hc : phiHit catalog t c = true
    · rw [if_pos hc] at h1; simp at h1
    · rw [if_neg hc] at h1
      refine ⟨h1, ?_⟩
      intro d hd
      cases hd with
      | head => simpa using hc
      | tail _ hd => exact h2 d hd

/-- Exhausting the outer fold of `checkPhiInSelect`. -/
theorem phi_outer_fold_eq_nil (catalog : Option SchemaCatalog) :
    ∀ (cols : ColMap) (acc : List String),
      (cols.foldl (fun acc pr => pr.2.foldl (fun acc c =>
        if phiHit catalog pr.1 c then acc ++ [phiName pr.1 c] else acc) acc) acc) = [] →
      acc = [] ∧ ∀ pr ∈ cols, ∀ c ∈ pr.2, phiHit catalog pr.1 c = false := by
  intro cols
  induction cols with
  | nil => intro acc h; exact ⟨h, by simp⟩
  | cons pr rest ih =>
    intro acc h
    simp only [List.foldl_cons] at h
    obtain ⟨h1, h2⟩ := ih _ h
    obtain ⟨h3, h4⟩ := phi_inner_fold_eq_nil catalog pr.1 pr.2 acc h1
    refine ⟨h3, ?_⟩
    intro q hq
    cases hq with
    | head => exact h4
    | tail _ hq => exact h2 q hq

/-- A passed PHI check means no exposed column triggers `phiHit`. -/
theorem checkPhiInSelect_none (columns : ColMap) (catalog : Option SchemaCatalog)
    (h : (checkPhiInSelect columns catalog).1 = none) :
    ∀ pr ∈ columns, ∀ c ∈ pr.2, phiHit catalog pr.1 c = false := by
  simp only [checkPhiInSelect] at h
  split at h
  · rename_i hemp
    rw [List.isEmpty_iff] at hemp
    exact (phi_outer_fold_eq_nil catalog columns [] hemp).2
  · simp at h

/-- Unpacking `phiHit … = false`. -/
theorem phiHit_false_elim (catalog : Option SchemaCatalog) (t c : String)
    (h : phiHit catalog t c = false) :
    lowerS c ∉ PHI_COLUMNS ∧
    (∀ cat tbl col, catalog = some cat → t ≠ "_UNKNOWN_" → t ≠ "_STAR_" →
      cat.get_table t = some tbl → tbl.getColumn (lowerS c) = some col →
      col.is_phi = false) := by
  unfold phiHit at h
  constructor
  · intro hmem
    rw [if_pos hmem] at h; simp at h
  · intro cat tbl col hc ht hs hgt hcol
    subst hc
    by_cases hmem : lowerS c ∈ PHI_COLUMNS
    · rw [if_pos hmem] at h; simp at h
    · rw [if_neg hmem] at h
      simp only [] at h
      have ht' : (t != "_UNKNOWN_" && t != "_STAR_") = true := by
        simp only [Bool.and_eq_true, bne_iff_ne, ne_eq]
        exact ⟨ht, hs⟩
      rw [if_pos ht'] at h
      rw [hgt] at h
      simp only [] at h
      rw [hcol] at h
      simpa using h

/-- C1: For every SQL string and catalog, if validate_sql returns
valid=true then no column of the alias-resolved SELECT-exposed map (which
excludes sub-expressions dominated by COUNT/SUM/AVG/MIN/MAX/ARRAY_AGG) has
a lowercase name in the PHI set or is marked PHI by the catalog for its
table; moreover `SELECT COUNT(DISTINCT hn) FROM ovst` is accepted while
`SELECT hn FROM ovst LIMIT 10` is rejected with PHIExposureError. -/
theorem phi_never_exposed_when_valid (sql : String) (p : Stmt)
    (catalog : Option SchemaCatalog) (max_rows : Int) (strict vj : Bool)
    (hvalid : (validateSql sql (some p) catalog max_rows strict vj).valid = true) :
    (∀ pr ∈ selectColumnsResolved p, ∀ c ∈ pr.2,
      lowerS c ∉ PHI_COLUMNS ∧
      (∀ cat tbl col, catalog = some cat → pr.1 ≠ "_UNKNOWN_" → pr.1 ≠ "_STAR_" →
        cat.get_table pr.1 = some tbl → tbl.getColumn (lowerS c) = some col →
        col.is_phi = false)) ∧
    (validateSql "SELECT COUNT(DISTINCT hn) AS n FROM ovst"
      (some stmtCountDistinctHn) (some exCatalog) 2000 true true).valid = true ∧
    (validateSql "SELECT hn FROM ovst LIMIT 10" (some stmtSelectHn)
      (some exCatalog) 2000 true true).error_type = some "PHIExposureError" ∧
    (validateSql "SELECT hn FROM ovst LIMIT 10" (some stmtSelectHn)
      (some exCatalog) 2000 true true).phi_columns_found = ["OVST.hn"] := by
  refine ⟨?_, by decide, by decide, by decide⟩
  obtain ⟨-, p', hp', -, -, hphi, -, -⟩ :=
    validateSql_valid_elim sql (some p) catalog max_rows strict vj hvalid
  obtain rfl : p = p' := Option.some.inj hp'
  intro pr hpr c hc
  exact phiHit_false_elim catalog pr.1 c (checkPhiInSelect_none _ _ hphi pr hpr c hc)

/-- C1 witness: the theorem applied to the accepted aggregate query. -/
theorem phi_never_exposed_when_valid_witness :
    (validateSql "SELECT COUNT(DISTINCT hn) AS n FROM ovst"
      (some stmtCountDistinctHn) (some exCatalog) 2000 true true).valid = true ∧
    (∀ pr ∈ selectColumnsResolved stmtCountDistinctHn, ∀ c ∈ pr.2,
      lowerS c ∉ PHI_COLUMNS ∧
      (∀ cat tbl col, some exCatalog = some cat → pr.1 ≠ "_UNKNOWN_" → pr.1 ≠ "_STAR_" →
        cat.get_table pr.1 = some tbl → tbl.getColumn (lowerS c) = some col →
        col.is_phi = false)) :=
  ⟨by decide,
   (phi_never_exposed_when_valid "SELECT COUNT(DISTINCT hn) AS n FROM ovst"
     stmtCountDistinctHn (some exCatalog) 2000 true true (by decide)).1⟩

/-- C2: if validate_sql returns valid=true then the statement parsed as a
SELECT shape (plain SELECT, set operation, or SELECT-bodied wrapper) and no
forbidden keyword occurs as a whole word in the literal-stripped uppercased
SQL. -/
theorem accepted_implies_select_and_no_keyword (sql : String) (parsed : Option Stmt)
    (catalog : Option SchemaCatalog) (max_rows : Int) (strict vj : Bool)
    (hvalid : (validateSql sql parsed catalog max_rows strict vj).valid = true) :
    (∃ p, parsed = some p ∧ isValidSelect p = true) ∧
    ∀ kw ∈ FORBIDDEN_KEYWORDS, containsWordAux kw.toList none (cleanedSql sql) = false := by
  obtain ⟨hkw, p, hp, hsel, -⟩ :=
    validateSql_valid_elim sql parsed catalog max_rows strict vj hvalid
  refine ⟨⟨p, hp, hsel⟩, ?_⟩
  intro kw hmem
  unfold quickKeywordCheck at hkw
  rw [Option.map_eq_none'] at hkw
  have := List.find?_eq_none.mp hkw kw hmem
  simpa using this

/-- C2 witness: the theorem applied to a concrete accepted query. -/
theorem accepted_implies_select_and_no_keyword_witness :
    (validateSql "SELECT vn, vstdate FROM ovst LIMIT 100"
      (some (stmtVn (some (.num 100)))) (some exCatalog) 2000 true true).valid = true ∧
    ((∃ p, some (stmtVn (some (.num 100))) = some p ∧ isValidSelect p = true) ∧
     ∀ kw ∈ FORBIDDEN_KEYWORDS,
       containsWordAux kw.toList none
         (cleanedSql "SELECT vn, vstdate FROM ovst LIMIT 100") = false) :=
  ⟨by decide,
   accepted_implies_select_and_no_keyword "SELECT vn, vstdate FROM ovst LIMIT 100"
     (some (stmtVn (some (.num 100)))) (some exCatalog) 2000 true true (by decide)⟩

/-- Shape of a strict-catalog failure result. -/
theorem strictCatalogFailure_shape (cat : SchemaCatalog) (p : Stmt)
    (r : ValidationResult) (h : strictCatalogFailure cat p = some r) :
    r.valid = false ∧ ∃ msg, r.error = some msg ∧
      (r.error_type = some "UnknownTableError" ∨
       r.error_type = some "UnknownColumnError") := by
  simp only [strictCatalogFailure] at h
  split at h
  · injection h with h2; rw [← h2]; exact ⟨rfl, _, rfl, Or.inl rfl⟩
  · split at h
    · injection h with h2; rw [← h2]; exact ⟨rfl, _, rfl, Or.inr rfl⟩
    · exact absurd h (by simp)

/-- Every validation result is either cleanly valid (no error, no error
type) or invalid with a message and one of the eight error kinds. -/
theorem validateSql_shape (sql : String) (parsed : Option Stmt)
    (catalog : Option SchemaCatalog) (max_rows : Int) (strict vj : Bool) :
    ((validateSql sql parsed catalog max_rows strict vj).valid = true ∧
     (validateSql sql parsed catalog max_rows strict vj).error = none ∧
     (validateSql sql parsed catalog max_rows strict vj).error_type = none) ∨
    ((validateSql sql parsed catalog max_rows strict vj).valid = false ∧
     ∃ msg ty,
      (validateSql sql parsed catalog max_rows strict vj).error = some msg ∧
      (validateSql sql parsed catalog max_rows strict vj).error_type = some ty ∧
      ty ∈ GUARD_ERROR_TYPES) := by
  unfold validateSql
  split
  · right; exact ⟨rfl, _, _, rfl, rfl, by decide⟩
  split
  · right; exact ⟨rfl, _, _, rfl, rfl, by decide⟩
  rename_i p
  split
  · right; exact ⟨rfl, _, _, rfl, rfl, by decide⟩
  split
  · right; exact ⟨rfl, _, _, rfl, rfl, by decide⟩
  split
  · right; exact ⟨rfl, _, _, rfl, rfl, by decide⟩
  split
  · rename_i failure hfail
    rcases catalog with _ | cat
    · exact absurd hfail (by simp)
    · simp only [] at hfail
      by_cases hs : strict = true
      · rw [if_pos hs] at hfail
        obtain ⟨hv, msg, he, hty⟩ := strictCatalogFailure_shape cat p failure hfail
        right
        refine ⟨hv, msg, ?_⟩
        rcases hty with ⟨ht⟩ | ⟨ht⟩
        · exact ⟨"UnknownTableError", he, ht, by decide⟩
        · exact ⟨"UnknownColumnError", he, ht, by decide⟩
      · rw [if_neg hs] at hfail
        exact absurd hfail (by simp)
  split
  · right; exact ⟨rfl, _, _, rfl, rfl, by decide⟩
  split
  · right; exact ⟨rfl, _, _, rfl, rfl, by decide⟩
  · left; exact ⟨rfl, rfl, rfl⟩

/-- Membership in the eight kinds pins down `errorClassFor`'s class name. -/
theorem errorClassFor_className (ty msg : String) (h : ty ∈ GUARD_ERROR_TYPES) :
    (errorClassFor (some ty) msg).className = ty := by
  simp only [GUARD_ERROR_TYPES, List.mem_cons, List.mem_singleton,
    List.not_mem_nil, or_false] at h
  rcases h with rfl | rfl | rfl | rfl | rfl | rfl | rfl | rfl <;> rfl

/-- C10: validate_sql returns either valid=true with no error and no error
type, or valid=false with a message and one of the eight guard error kinds;
guard_sql returns the input unchanged exactly when valid, and otherwise
raises the guard-error class whose name equals the result's error_type. -/
theorem validation_result_shape_and_guard (sql : String) (parsed : Option Stmt)
    (catalog : Option SchemaCatalog) (max_rows : Int) (strict vj : Bool) :
    ((validateSql sql parsed catalog max_rows strict vj).valid = false →
       ∃ msg ty,
         (validateSql sql parsed catalog max_rows strict vj).error = some msg ∧
         (validateSql sql parsed catalog max_rows strict vj).error_type = some ty ∧
         ty ∈ GUARD_ERROR_TYPES ∧
         guardSql sql parsed catalog max_rows strict vj =
           .error (errorClassFor (some ty) msg) ∧
         (errorClassFor (some ty) msg).className = ty) ∧
    ((validateSql sql parsed catalog max_rows strict vj).valid = true →
       (validateSql sql parsed catalog max_rows strict vj).error = none ∧
       (validateSql sql parsed catalog max_rows strict vj).error_type = none ∧
       guardSql sql parsed catalog max_rows strict vj = .ok sql) := by
  have hsh := validateSql_shape sql parsed catalog max_rows strict vj
  constructor
  · intro hinv
    rcases hsh with ⟨hv, -, -⟩ | ⟨hv, msg, ty, he, ht, hmem⟩
    · rw [hv] at hinv; exact absurd hinv (by simp)
    · refine ⟨msg, ty, he, ht, hmem, ?_, errorClassFor_className ty msg hmem⟩
      simp only [guardSql, hv, Bool.false_eq_true, if_false, ht, he]
      rfl
  · intro hval
    rcases hsh with ⟨-, he, ht⟩ | ⟨hv, -⟩
    · refine ⟨he, ht, ?_⟩
      simp only [guardSql, hval, if_true]
    · rw [hv] at hval; exact absurd hval (by simp)

/-- C4: accepted non-aggregate queries carry a LIMIT whose value is at
most max_rows; aggregate-classified queries are never rejected by the LIMIT
rule; and when every earlier layer passes, a missing or oversized LIMIT on
a non-aggregate query is rejected with MissingLimitError. -/
theorem limit_rule (sql : String) (p : Stmt) (catalog : Option SchemaCatalog)
    (max_rows : Int) (strict vj : Bool) :
    ((validateSql sql (some p) catalog max_rows strict vj).valid = true →
      hasAggregation p = false →
      ∃ v, getLimitValue p = some v ∧ v ≤ max_rows) ∧
    (hasAggregation p = true →
      (validateSql sql (some p) catalog max_rows strict vj).error_type ≠
        some "MissingLimitError") ∧
    (quickKeywordCheck sql = none → isValidSelect p = true →
      checkSelectStar (extractOutputColumns p) = none →
      (checkPhiInSelect (selectColumnsResolved p) catalog).1 = none →
      (∀ cat, catalog = some cat → strict = true → strictCatalogFailure cat p = none) →
      hasAggregation p = false →
      (getLimitValue p = none ∨ ∃ v, getLimitValue p = some v ∧ v > max_rows) →
      (validateSql sql (some p) catalog max_rows strict vj).valid = false ∧
      (validateSql sql (some p) catalog max_rows strict vj).error_type =
        some "MissingLimitError") := by
  refine ⟨?_, ?_, ?_⟩
  · intro hvalid hagg
    obtain ⟨-, p', hp', -, -, -, -, hlim⟩ :=
      validateSql_valid_elim sql (some p) catalog max_rows strict vj hvalid
    obtain rfl : p = p' := Option.some.inj hp'
    exact hlim hagg
  · intro hagg
    unfold validateSql
    split
    · simp
    split
    · simp
    rename_i p2 hp2
    obtain rfl : p = p2 := Option.some.inj hp2
    split
    · simp
    split
    · simp
    split
    · simp
    split
    · rename_i failure hfail
      rcases catalog with _ | cat
      · exact absurd hfail (by simp)
      · simp only [] at hfail
        by_cases hs : strict = true
        · rw [if_pos hs] at hfail
          obtain ⟨-, msg, -, hty⟩ := strictCatalogFailure_shape cat p failure hfail
          rcases hty with ⟨ht⟩ | ⟨ht⟩ <;> rw [ht] <;> simp
        · rw [if_neg hs] at hfail
          exact absurd hfail (by simp)
    split
    · rename_i hcond
      rw [hagg] at hcond
      simp at hcond
    split
    · rename_i hcond
      rw [hagg] at hcond
      simp at hcond
    · simp
  · intro hkw hsel hstar hphi hcat hagg hbad
    unfold validateSql
    rw [hkw]
    simp only []
    rw [hsel]
    simp only [Bool.not_true, Bool.false_eq_true, if_false]
    rw [hstar]
    simp only []
    cases hphi2 : checkPhiInSelect (selectColumnsResolved p) catalog with
    | mk ophi found =>
    rw [hphi2] at hphi
    simp only [] at hphi
    subst hphi
    simp only []
    have hcatnone : (match catalog with
        | some cat => if strict = true then strictCatalogFailure cat p else none
        | none => none) = none := by
      rcases catalog with _ | cat
      · rfl
      · simp only []
        by_cases hs : strict = true
        · rw [if_pos hs]
          exact hcat cat rfl hs
        · rw [if_neg hs]
    rw [hcatnone]
    simp only []
    rw [hagg]
    simp only [Bool.not_false, Bool.true_and]
    rcases hbad with hnone | ⟨v, hv, hgt⟩
    · rw [hnone]
      rw [show ((none == (none : Option Int)) = true) from rfl]
      simp only [if_true]
      exact ⟨trivial, trivial⟩
    · rw [hv]
      rw [show ((some v == (none : Option Int)) = false) from rfl]
      simp only [Bool.false_eq_true, if_false]
      rw [if_pos (by simpa using hgt)]
      constructor <;> rfl

/-- C4 witness: the theorem applied to concrete accepted, aggregate and
LIMIT-violating queries. -/
theorem limit_rule_witness :
    ((validateSql "SELECT vn, vstdate FROM ovst LIMIT 100"
        (some (stmtVn (some (.num 100)))) (some exCatalog) 2000 true true).valid = true ∧
      hasAggregation (stmtVn (some (.num 100))) = false ∧
      (∃ v, getLimitValue (stmtVn (some (.num 100))) = some v ∧ v ≤ 2000)) ∧
    (hasAggregation stmtCountStar = true ∧
      (validateSql "SELECT COUNT(*) FROM ovst" (some stmtCountStar)
        (some exCatalog) 2000 true true).error_type ≠ some "MissingLimitError") ∧
    ((validateSql "SELECT vn, vstdate FROM ovst" (some (stmtVn none))
        (some exCatalog) 2000 true true).valid = false ∧
      (validateSql "SELECT vn, vstdate FROM ovst" (some (stmtVn none))
        (some exCatalog) 2000 true true).error_type = some "MissingLimitError") := by
  refine ⟨⟨by decide, by decide, ?_⟩, ⟨by decide, ?_⟩, ?_⟩
  · exact (limit_rule "SELECT vn, vstdate FROM ovst LIMIT 100"
      (stmtVn (some (.num 100))) (some exCatalog) 2000 true true).1
      (by decide) (by decide)
  · exact (limit_rule "SELECT COUNT(*) FROM ovst" stmtCountStar
      (some exCatalog) 2000 true true).2.1 (by decide)
  · exact (limit_rule "SELECT vn, vstdate FROM ovst" (stmtVn none)
      (some exCatalog) 2000 true true).2.2 (by decide) (by decide) (by decide)
      (by decide) (by intro cat hc hs; cases hc; decide) (by decide)
      (Or.inl (by decide))

/-- C10 witness: the shape theorem at a concrete invalid (missing LIMIT)
query and at a concrete valid query. -/
theorem validation_result_shape_and_guard_witness :
    ((validateSql "SELECT vn, vstdate FROM ovst" (some (stmtVn none))
        (some exCatalog) 2000 true true).valid = false ∧
     (∃ msg ty,
        (validateSql "SELECT vn, vstdate FROM ovst" (some (stmtVn none))
          (some exCatalog) 2000 true true).error = some msg ∧
        (validateSql "SELECT vn, vstdate FROM ovst" (some (stmtVn none))
          (some exCatalog) 2000 true true).error_type = some ty ∧
        ty ∈ GUARD_ERROR_TYPES ∧
        guardSql "SELECT vn, vstdate FROM ovst" (some (stmtVn none))
          (some exCatalog) 2000 true true = .error (errorClassFor (some ty) msg) ∧
        (errorClassFor (some ty) msg).className = ty)) ∧
    ((validateSql "SELECT vn, vstdate FROM ovst LIMIT 100"
        (some (stmtVn (some (.num 100)))) (some exCatalog) 2000 true true).valid = true ∧
     guardSql "SELECT vn, vstdate FROM ovst LIMIT 100"
        (some (stmtVn (some (.num 100)))) (some exCatalog) 2000 true true =
       .ok "SELECT vn, vstdate FROM ovst LIMIT 100") :=
  ⟨⟨by decide,
    (validation_result_shape_and_guard "SELECT vn, vstdate FROM ovst"
      (some (stmtVn none)) (some exCatalog) 2000 true true).1 (by decide)⟩,
   ⟨by decide,
    ((validation_result_shape_and_guard "SELECT vn, vstdate FROM ovst LIMIT 100"
      (some (stmtVn (some (.num 100)))) (some exCatalog) 2000 true true).2
      (by decide)).2.2⟩⟩

/-- Exhausting the invalid-columns fold of `validate_sql_references`. -/
theorem refs_fold_eq_nil (cat : SchemaCatalog) :
    ∀ (cols : ColMap) (acc : List String),
      (cols.foldl (fun acc pr =>
        if !cat.table_exists pr.1 then acc
        else acc ++ (pr.2.filter (fun c => !cat.column_exists pr.1 c)).map
          (fun c => pr.1 ++ "." ++ c)) acc) = [] →
      acc = [] ∧ ∀ pr ∈ cols, cat.table_exists pr.1 = true →
        ∀ c ∈ pr.2, cat.column_exists pr.1 c = true := by
  intro cols
  induction cols with
  | nil => intro acc h; exact ⟨h, by simp⟩
  | cons pr rest ih =>
    intro acc h
    simp only [List.foldl_cons] at h
    obtain ⟨h1, h2⟩ := ih _ h
    by_cases hex : cat.table_exists pr.1 = true
    · rw [if_neg (by simp [hex])] at h1
      rw [List.append_eq_nil] at h1
      obtain ⟨hacc, hmap⟩ := h1
      refine ⟨hacc, ?_⟩
      intro q hq hqex c hc
      cases hq with
      | head =>
          by_contra hne
          have hcmem : c ∈ pr.2.filter (fun c => !cat.column_exists pr.1 c) := by
            rw [List.mem_filter]
            exact ⟨hc, by simp [hne]⟩
          have : (pr.1 ++ "." ++ c) ∈ (pr.2.filter
              (fun c => !cat.column_exists pr.1 c)).map (fun c => pr.1 ++ "." ++ c) :=
            List.mem_map_of_mem _ hcmem
          rw [hmap] at this
          exact absurd this (List.not_mem_nil _)
      | tail _ hq => exact h2 q hq hqex c hc
    · rw [if_pos (by simp [hex])] at h1
      refine ⟨h1, ?_⟩
      intro q hq hqex c hc
      cases hq with
      | head => exact absurd hqex hex
      | tail _ hq => exact h2 q hq hqex c hc

/-- Entries of the invalid-columns list always come from existing tables. -/
theorem refs_fold_mem (cat : SchemaCatalog) :
    ∀ (cols : ColMap) (acc : List String) (entry : String),
      entry ∈ (cols.foldl (fun acc pr =>
        if !cat.table_exists pr.1 then acc
        else acc ++ (pr.2.filter (fun c => !cat.column_exists pr.1 c)).map
          (fun c => pr.1 ++ "." ++ c)) acc) →
      entry ∈ acc ∨ ∃ pr ∈ cols, ∃ c ∈ pr.2, entry = pr.1 ++ "." ++ c ∧
        cat.table_exists pr.1 = true ∧ cat.column_exists pr.1 c = false := by
  intro cols
  induction cols with
  | nil => intro acc entry h; exact Or.inl h
  | cons pr rest ih =>
    intro acc entry h
    simp only [List.foldl_cons] at h
    rcases ih _ entry h with hstep | ⟨q, hq, c, hc, he, hex, hcol⟩
    · by_cases hex : cat.table_exists pr.1 = true
      · rw [if_neg (by simp [hex])] at hstep
        rcases List.mem_append.mp hstep with hacc | hmap
        · exact Or.inl hacc
        · obtain ⟨c, hcmem, hceq⟩ := List.mem_map.mp hmap
          rw [List.mem_filter] at hcmem
          refine Or.inr ⟨pr, List.mem_cons_self pr rest, c, hcmem.1, hceq.symm, hex, ?_⟩
          simpa using hcmem.2
      · rw [if_pos (by simp [hex])] at hstep
        exact Or.inl hstep
    · exact Or.inr ⟨q, List.mem_cons_of_mem pr hq, c, hc, he, hex, hcol⟩

/-- `strictCatalogFailure = none` means both reference lists are empty. -/
theorem strictCatalogFailure_none_elim (cat : SchemaCatalog) (p : Stmt)
    (h : strictCatalogFailure cat p = none) :
    (cat.validate_sql_references (extractTables p) (columnsForValidation p)).1 = [] ∧
    (cat.validate_sql_references (extractTables p) (columnsForValidation p)).2 = [] := by
  simp only [strictCatalogFailure] at h
  split at h
  · exact absurd h (by simp)
  split at h
  · exact absurd h (by simp)
  rename_i h1 h2
  constructor
  · simpa using h1
  · simpa using h2

/-- C5: under strict mode with a catalog, acceptance implies every
referenced table exists and every resolved column attributed to a known
table exists in that table; and `validate_sql_references` reports invalid
columns only for tables that exist. -/
theorem strict_references_sound (sql : String) (p : Stmt) (cat : SchemaCatalog)
    (max_rows : Int) (vj : Bool)
    (hvalid : (validateSql sql (some p) (some cat) max_rows true vj).valid = true) :
    (∀ t ∈ extractTables p, cat.table_exists t = true) ∧
    (∀ pr ∈ columnsForValidation p, cat.table_exists pr.1 = true →
      ∀ c ∈ pr.2, cat.column_exists pr.1 c = true) ∧
    (∀ (tables : List String) (columns : ColMap) (entry : String),
      entry ∈ (cat.validate_sql_references tables columns).2 →
      ∃ pr ∈ columns, ∃ c ∈ pr.2, entry = pr.1 ++ "." ++ c ∧
        cat.table_exists pr.1 = true ∧ cat.column_exists pr.1 c = false) := by
  obtain ⟨-, p', hp', -, -, -, hcat, -⟩ :=
    validateSql_valid_elim sql (some p) (some cat) max_rows true vj hvalid
  obtain rfl : p = p' := Option.some.inj hp'
  obtain ⟨h1, h2⟩ := strictCatalogFailure_none_elim cat p (hcat cat rfl rfl)
  refine ⟨?_, ?_, ?_⟩
  · intro t ht
    by_contra hne
    have : t ∈ (extractTables p).filter (fun t => !cat.table_exists t) := by
      rw [List.mem_filter]
      exact ⟨ht, by simp [hne]⟩
    rw [show ((extractTables p).filter (fun t => !cat.table_exists t)) =
        (cat.validate_sql_references (extractTables p) (columnsForValidation p)).1
      from rfl, h1] at this
    exact absurd this (List.not_mem_nil t)
  · exact (refs_fold_eq_nil cat (columnsForValidation p) []
      (by simpa [SchemaCatalog.validate_sql_references] using h2)).2
  · intro tables columns entry hmem
    have := refs_fold_mem cat columns [] entry
      (by simpa [SchemaCatalog.validate_sql_references] using hmem)
    rcases this with habs | hok
    · exact absurd habs (List.not_mem_nil entry)
    · exact hok

/-- C5 witness: the theorem applied to a concrete accepted aliased query. -/
theorem strict_references_sound_witness :
    (validateSql "SELECT vn, vstdate FROM ovst LIMIT 100"
      (some (stmtVn (some (.num 100)))) (some exCatalog) 2000 true true).valid = true ∧
    (∀ t ∈ extractTables (stmtVn (some (.num 100))), exCatalog.table_exists t = true) :=
  ⟨by decide,
   (strict_references_sound "SELECT vn, vstdate FROM ovst LIMIT 100"
     (stmtVn (some (.num 100))) exCatalog 2000 true (by decide)).1⟩

/-- C7: the guarded executor returns at most max_rows rows, row_count
equals the number of returned rows, truncated holds exactly when the cursor
yielded max_rows + 1 fetched rows, columns are the declared description in
order, and every returned row is the positional value projection of a
cursor row whose keys follow the declared column order. -/
theorem execute_query_contract (cursorRows : List DictRow)
    (description : List String) (max_rows : Nat)
    (hkeys : ∀ r ∈ cursorRows, r.map Prod.fst = description) :
    (executeQuery cursorRows description max_rows).rows.length ≤ max_rows ∧
    (executeQuery cursorRows description max_rows).row_count =
      (executeQuery cursorRows description max_rows).rows.length ∧
    ((executeQuery cursorRows description max_rows).truncated = true ↔
      (cursorRows.take (max_rows + 1)).length = max_rows + 1) ∧
    (executeQuery cursorRows description max_rows).columns = description ∧
    (∀ row ∈ (executeQuery cursorRows description max_rows).rows,
      ∃ r ∈ cursorRows, r.map Prod.fst = description ∧ row = r.map Prod.snd) := by
  refine ⟨?_, rfl, ?_, rfl, ?_⟩
  · show ((keptRows cursorRows max_rows).map (fun r => r.map Prod.snd)).length ≤ max_rows
    rw [List.length_map]
    unfold keptRows
    split
    · rw [List.length_take]
      omega
    · rename_i hle
      omega
  · show (decide ((fetchedRows cursorRows max_rows).length > max_rows) = true ↔ _)
    rw [decide_eq_true_iff]
    unfold fetchedRows
    rw [List.length_take]
    omega
  · intro row hrow
    show ∃ r ∈ cursorRows, r.map Prod.fst = description ∧ row = r.map Prod.snd
    have hrow' : row ∈ (keptRows cursorRows max_rows).map (fun r => r.map Prod.snd) := hrow
    obtain ⟨r, hr, hreq⟩ := List.mem_map.mp hrow'
    have hrcur : r ∈ cursorRows := by
      have h1 : r ∈ fetchedRows cursorRows max_rows := by
        unfold keptRows at hr
        split at hr
        · exact List.take_subset _ _ hr
        · exact hr
      exact List.take_subset _ _ h1
    exact ⟨r, hrcur, hkeys r hrcur, hreq.symm⟩

/-- C7 witness: the theorem at a concrete cursor stream that overflows the
cap. -/
theorem execute_query_contract_witness :
    (∀ r ∈ [[("a", some (1 : Int))], [("a", some 2)], [("a", some 3)]],
      r.map Prod.fst = ["a"]) ∧
    ((executeQuery [[("a", some 1)], [("a", some 2)], [("a", some 3)]] ["a"] 2).rows.length ≤ 2 ∧
     (executeQuery [[("a", some 1)], [("a", some 2)], [("a", some 3)]] ["a"] 2).row_count =
       (executeQuery [[("a", some 1)], [("a", some 2)], [("a", some 3)]] ["a"] 2).rows.length ∧
     ((executeQuery [[("a", some 1)], [("a", some 2)], [("a", some 3)]] ["a"] 2).truncated = true ↔
       ([[("a", some (1 : Int))], [("a", some 2)], [("a", some 3)]].take 3).length = 3) ∧
     (executeQuery [[("a", some 1)], [("a", some 2)], [("a", some 3)]] ["a"] 2).columns = ["a"] ∧
     (∀ row ∈ (executeQuery [[("a", some 1)], [("a", some 2)], [("a", some 3)]] ["a"] 2).rows,
       ∃ r ∈ [[("a", some (1 : Int))], [("a", some 2)], [("a", some 3)]],
         r.map Prod.fst = ["a"] ∧ row = r.map Prod.snd)) :=
  ⟨by decide,
   execute_query_contract [[("a", some 1)], [("a", some 2)], [("a", some 3)]] ["a"] 2
     (by decide)⟩

/-- The trace of the execute stage. -/
theorem executeAndRespond_trace (env : OrchEnv) (sid q sqlF : String)
    (genF : SQLGenerationResponse) (r : Nat) :
    (executeAndRespond env sid q sqlF genF r).2 = { executed := [sqlF], retries := r } := by
  unfold executeAndRespond
  split <;> rfl

/-- C3: SQL reaches the executor only after passing strict validation; at
most one regeneration is attempted and at most one SQL is executed per
request; and when the first validation fails and the retry fails too (or no
retry is produced), nothing is executed and the response carries the
validation error. -/
theorem orchestrator_guard_discipline (env : OrchEnv) (sid q : String)
    (gen : SQLGenerationResponse) (retryGen : Option SQLGenerationResponse) :
    (∀ s ∈ (processQuestion env sid q gen retryGen).2.executed,
       (validateSql s (env.parse s) env.catalog env.max_rows true true).valid = true) ∧
    (processQuestion env sid q gen retryGen).2.retries ≤ 1 ∧
    (processQuestion env sid q gen retryGen).2.executed.length ≤ 1 ∧
    (gen.needs_clarification = false → gen.sql ≠ "" →
      (validateSql gen.sql (env.parse gen.sql) env.catalog env.max_rows true true).valid = false →
      (∀ rr, retryGen = some rr →
        (validateSql rr.sql (env.parse rr.sql) env.catalog env.max_rows true true).valid = false) →
      (processQuestion env sid q gen retryGen).2.executed = [] ∧
      (processQuestion env sid q gen retryGen).1.error =
        (validateSql gen.sql (env.parse gen.sql) env.catalog env.max_rows true true).error) := by
  unfold processQuestion
  by_cases hnc : gen.needs_clarification = true
  · rw [if_pos hnc]
    refine ⟨by simp, by simp, by simp, ?_⟩
    intro hnc2
    rw [hnc2] at hnc
    exact absurd hnc (by simp)
  · rw [if_neg hnc]
    by_cases hsql : (gen.sql == "") = true
    · rw [if_pos hsql]
      refine ⟨by simp, by simp, by simp, ?_⟩
      intro _ hne
      exact absurd (by simpa using hsql) hne
    · rw [if_neg hsql]
      by_cases hv : (validateSql gen.sql (env.parse gen.sql) env.catalog env.max_rows true true).valid = true
      · rw [if_pos hv]
        rw [executeAndRespond_trace]  -- rewrites the .2 occurrences
        refine ⟨?_, by simp, by simp, ?_⟩
        · intro s hs
          simp only [List.mem_singleton] at hs
          subst hs
          exact hv
        · intro _ _ hv2
          rw [hv] at hv2
          exact absurd hv2 (by simp)
      · rw [if_neg hv]
        cases retryGen with
        | none =>
            simp only []
            refine ⟨by simp [guardFailureResponse], by simp [guardFailureResponse],
              by simp [guardFailureResponse], ?_⟩
            intro _ _ _ _
            exact ⟨rfl, rfl⟩
        | some rr =>
            simp only []
            by_cases hrv : (validateSql rr.sql (env.parse rr.sql) env.catalog env.max_rows true true).valid = true
            · rw [if_pos hrv]
              rw [executeAndRespond_trace]
              refine ⟨?_, by simp, by simp, ?_⟩
              · intro s hs
                simp only [List.mem_singleton] at hs
                subst hs
                exact hrv
              · intro _ _ _ hall
                have := hall rr rfl
                rw [hrv] at this
                exact absurd this (by simp)
            · rw [if_neg hrv]
              refine ⟨by simp [guardFailureResponse], by simp [guardFailureResponse],
                by simp [guardFailureResponse], ?_⟩
              intro _ _ _ _
              exact ⟨rfl, rfl⟩

/-- C3 witness: a request whose SQL fails validation and whose retry is
absent: nothing executed, error carried through. -/
theorem orchestrator_guard_discipline_witness :
    (exGenBad.needs_clarification = false ∧ exGenBad.sql ≠ "" ∧
     (validateSql exGenBad.sql (exEnvBad.parse exGenBad.sql) exEnvBad.catalog
        exEnvBad.max_rows true true).valid = false) ∧
    ((processQuestion exEnvBad "sid" "q" exGenBad none).2.executed = [] ∧
     (processQuestion exEnvBad "sid" "q" exGenBad none).1.error =
       (validateSql exGenBad.sql (exEnvBad.parse exGenBad.sql) exEnvBad.catalog
          exEnvBad.max_rows true true).error) :=
  ⟨⟨by decide, by decide, by decide⟩,
   (orchestrator_guard_discipline exEnvBad "sid" "q" exGenBad none).2.2.2
     (by decide) (by decide) (by decide) (by intro rr h; cases h)⟩

/-- C6 counterexample: for a standard_user caller the HTTP response is
stripped of SQL, but the assistant message stored in the session still
records the SQL — `handle_message` appends it before the role filter of the
endpoint runs, and it has no access to the caller's role. -/
theorem session_sql_storage_counterexample :
    (chatEndpoint exEnv "standard_user" [] "sid" "q" exGen none).1.sql = none ∧
    (chatEndpoint exEnv "standard_user" [] "sid" "q" exGen none).2.1.map
      SessionMessage.sql =
      [none, some "SELECT vn, vstdate FROM ovst LIMIT 100"] := by
  constructor
  · decide
  · decide

/-- C6 amended: the assistant message appended to the session records the
final answer and the SQL of the un-redacted response regardless of role;
only the HTTP response returned by the endpoint is stripped of sql,
query_result and sanity_checks for non-super_user callers (and returned
unchanged for super_user). -/
theorem session_sql_storage_amended (env : OrchEnv) (role : String)
    (session : List SessionMessage) (sid q : String)
    (gen : SQLGenerationResponse) (retryGen : Option SQLGenerationResponse) :
    (chatEndpoint env role session sid q gen retryGen).2.1 =
      session ++
        [{ role := "user", content := q, sql := none },
         { role := "assistant",
           content := (processQuestion env sid q gen retryGen).1.answer,
           sql := (processQuestion env sid q gen retryGen).1.sql }] ∧
    (role ≠ "super_user" →
      (chatEndpoint env role session sid q gen retryGen).1.sql = none ∧
      (chatEndpoint env role session sid q gen retryGen).1.query_result = none ∧
      (chatEndpoint env role session sid q gen retryGen).1.sanity_checks = []) ∧
    (role = "super_user" →
      (chatEndpoint env role session sid q gen retryGen).1 =
        (processQuestion env sid q gen retryGen).1) := by
  refine ⟨?_, ?_, ?_⟩
  · simp [chatEndpoint, handleMessage]
  · intro hrole
    have hne : (role != "super_user") = true := by simpa using hrole
    simp [chatEndpoint, handleMessage, stripForRole, hne]
  · intro hrole
    subst hrole
    simp [chatEndpoint, handleMessage, stripForRole]

/-- C6 witness: the amended theorem at the concrete standard_user request. -/
theorem session_sql_storage_amended_witness :
    ("standard_user" ≠ "super_user") ∧
    ((chatEndpoint exEnv "standard_user" [] "sid" "q" exGen none).1.sql = none ∧
     (chatEndpoint exEnv "standard_user" [] "sid" "q" exGen none).1.query_result = none ∧
     (chatEndpoint exEnv "standard_user" [] "sid" "q" exGen none).1.sanity_checks = []) :=
  ⟨by decide,
   (session_sql_storage_amended exEnv "standard_user" [] "sid" "q" exGen none).2.1
     (by decide)⟩

/-- C9 counterexample: a result has a column named with the substring
`percent` (namely `percent_b`, at index 1) holding the non-null value 200,
outside [0, 100]; the claim says the check fails, yet `check_percent_range`
passes — it only ever inspects the first matching column. -/
theorem percent_check_counterexample :
    containsChars (lowerS "percent").data (lowerS "percent_b").data = true ∧
    percentTwoCols.columns.get? 1 = some "percent_b" ∧
    (∃ row ∈ percentTwoCols.rows, row.get? 1 = some (some 200)) ∧
    ((200 : Int) < 0 ∨ (200 : Int) > 100) ∧
    (checkPercentRange percentTwoCols "percent" 0 100).passed = true := by
  refine ⟨by decide, by decide, ⟨[some 50, some 200], by decide, by decide⟩,
    by decide, by decide⟩

/-- The row loop of the percent check, for rows long enough. -/
theorem checkRowsPercent_passed_iff (i : Nat) (mn mx : Int) :
    ∀ rows : List (List SqlVal), (∀ row ∈ rows, i < row.length) →
    ((checkRowsPercent rows i mn mx).passed = false ↔
      ∃ row ∈ rows, ∃ v : Int, row.get? i = some (some v) ∧ (v < mn ∨ v > mx)) := by
  intro rows
  induction rows with
  | nil => intro _; simp [checkRowsPercent]
  | cons row rest ih =>
    intro hlen
    have hrow : i < row.length := hlen row (List.mem_cons_self _ _)
    have ihr := ih (fun r hr => hlen r (List.mem_cons_of_mem _ hr))
    simp only [checkRowsPercent]
    cases hg : row.get? i with
    | none =>
        exfalso
        rw [List.get?_eq_none] at hg
        omega
    | some val =>
        cases val with
        | none =>
            rw [ihr]
            constructor
            · rintro ⟨r, hr, v, hv, hor⟩
              exact ⟨r, List.mem_cons_of_mem _ hr, v, hv, hor⟩
            · rintro ⟨r, hr, v, hv, hor⟩
              cases hr with
              | head => rw [hg] at hv; exact absurd hv (by simp)
              | tail _ hr => exact ⟨r, hr, v, hv, hor⟩
        | some v =>
            simp only []
            by_cases hout : v < mn ∨ v > mx
            · rw [if_pos (by simpa [Bool.or_eq_true, decide_eq_true_iff] using hout)]
              simp only [true_iff]
              exact ⟨row, List.mem_cons_self _ _, v, hg, hout⟩
            · rw [if_neg (by simpa [Bool.or_eq_true, decide_eq_true_iff] using hout)]
              rw [ihr]
              constructor
              · rintro ⟨r, hr, w, hw, hor⟩
                exact ⟨r, List.mem_cons_of_mem _ hr, w, hw, hor⟩
              · rintro ⟨r, hr, w, hw, hor⟩
                cases hr with
                | head =>
                    rw [hg] at hw
                    have : v = w := by injection hw with hw2; injection hw2
                    subst this
                    exact absurd hor hout
                | tail _ hr => exact ⟨r, hr, w, hw, hor⟩

/-- C9 amended: the percentage check inspects only the FIRST column whose
name contains `percent`; for rows long enough it fails exactly when a
non-null value of that column is outside [0, 100]; with no matching column
it passes as skipped; and a failed sanity check is attached to the
response's `sanity_checks` while the response still carries the answer and
no error. -/
theorem percent_check_amended (result : QueryResult) (idx : Nat)
    (hidx : findColIdx
      (fun col => containsChars (lowerS "percent").data (lowerS col).data)
      result.columns 0 = some idx)
    (hlen : ∀ row ∈ result.rows, idx < row.length) :
    ((checkPercentRange result "percent" 0 100).passed = false ↔
      ∃ row ∈ result.rows, ∃ v : Int, row.get? idx = some (some v) ∧
        (v < 0 ∨ v > 100)) ∧
    (∀ result2 : QueryResult,
      findColIdx (fun col => containsChars (lowerS "percent").data (lowerS col).data)
        result2.columns 0 = none →
      (checkPercentRange result2 "percent" 0 100).passed = true) ∧
    (∀ (env : OrchEnv) (sid question : String) (gen : SQLGenerationResponse)
       (res : QueryResult),
      gen.needs_clarification = false → gen.sql ≠ "" →
      (validateSql gen.sql (env.parse gen.sql) env.catalog env.max_rows true true).valid = true →
      env.execute gen.sql = .ok res →
      (processQuestion env sid question gen none).1.sanity_checks =
        runSanityChecks res (some gen.validation_checks) ∧
      (processQuestion env sid question gen none).1.error = none) := by
  refine ⟨?_, ?_, ?_⟩
  · unfold checkPercentRange
    rw [hidx]
    exact checkRowsPercent_passed_iff idx 0 100 result.rows hlen
  · intro result2 hnone
    unfold checkPercentRange
    rw [hnone]
  · intro env sid question gen res hnc hsql hval hex
    unfold processQuestion
    rw [if_neg (by simp [hnc]), if_neg (by simpa using hsql), if_pos hval]
    unfold executeAndRespond
    rw [hex]
    exact ⟨rfl, rfl⟩

/-- C9 witness: the amended theorem at a result whose only percent column
holds 150, so the check fails. -/
theorem percent_check_amended_witness :
    (findColIdx (fun col => containsChars (lowerS "percent").data (lowerS col).data)
      percentOneBad.columns 0 = some 0 ∧
     (∀ row ∈ percentOneBad.rows, 0 < row.length)) ∧
    ((checkPercentRange percentOneBad "percent" 0 100).passed = false ↔
      ∃ row ∈ percentOneBad.rows,
        ∃ v : Int, row.get? 0 = some (some v) ∧ (v < 0 ∨ v > 100)) :=
  ⟨⟨by decide, by decide⟩,
   (percent_check_amended percentOneBad 0 (by decide) (by decide)).1⟩

theorem bfsStep_ok (tu : String) (mh : Nat) (fu : String) (en : BfsEntry)
    (hen : EntryOK fu mh en) (acc : List JoinPath × List BfsEntry)
    (h1 : ∀ p ∈ acc.1, PathOK fu tu mh p) (h2 : ∀ x ∈ acc.2, EntryOK fu mh x)
    (e : JoinEdge) :
    (∀ p ∈ (bfsStep tu mh fu en acc e).1, PathOK fu tu mh p) ∧
    (∀ x ∈ (bfsStep tu mh fu en acc e).2, EntryOK fu mh x) := by
  obtain ⟨hlen, hvis, hnd⟩ := hen
  unfold bfsStep
  by_cases hv : e.to_table ∈ en.visited
  · rw [if_pos hv]; exact ⟨h1, h2⟩
  · rw [if_neg hv]
    have hkey : fu :: (en.path ++ [e]).map JoinEdge.to_table =
        en.visited ++ [e.to_table] := by
      rw [List.map_append]
      simp [hvis]
    have hnodup : (fu :: (en.path ++ [e]).map JoinEdge.to_table).Nodup := by
      rw [hkey, List.nodup_append]
      refine ⟨hnd, List.nodup_singleton _, ?_⟩
      intro a ha hb
      simp only [List.mem_singleton] at hb
      subst hb
      exact hv ha
    by_cases ht : (e.to_table == tu) = true
    · rw [if_pos ht]
      refine ⟨?_, h2⟩
      intro p hp
      rcases List.mem_append.mp hp with hp | hp
      · exact h1 p hp
      · simp only [List.mem_singleton] at hp
        subst hp
        refine ⟨en.path ++ [e], rfl, ?_, hnodup⟩
        rcases hlen with hl | hl
        · simp only [List.length_append, List.length_singleton]
          omega
        · rw [hl]
          simp only [List.nil_append, List.length_singleton]
          omega
    · rw [if_neg ht]
      by_cases hm : (en.path ++ [e]).length < mh
      · rw [if_pos hm]
        refine ⟨h1, ?_⟩
        intro x hx
        rcases List.mem_append.mp hx with hx | hx
        · exact h2 x hx
        · simp only [List.mem_singleton] at hx
          subst hx
          refine ⟨Or.inl hm, hkey.symm, ?_⟩
          show (en.visited ++ [e.to_table]).Nodup
          rw [← hkey]
          exact hnodup
      · rw [if_neg hm]
        exact ⟨h1, h2⟩

theorem bfsFold_ok (tu : String) (mh : Nat) (fu : String) (en : BfsEntry)
    (hen : EntryOK fu mh en) :
    ∀ (edges : List JoinEdge) (acc : List JoinPath × List BfsEntry),
      (∀ p ∈ acc.1, PathOK fu tu mh p) → (∀ x ∈ acc.2, EntryOK fu mh x) →
      (∀ p ∈ (edges.foldl (bfsStep tu mh fu en) acc).1, PathOK fu tu mh p) ∧
      (∀ x ∈ (edges.foldl (bfsStep tu mh fu en) acc).2, EntryOK fu mh x) := by
  intro edges
  induction edges with
  | nil => intro acc h1 h2; exact ⟨h1, h2⟩
  | cons e rest ih =>
    intro acc h1 h2
    simp only [List.foldl_cons]
    obtain ⟨h1a, h2a⟩ := bfsStep_ok tu mh fu en hen acc h1 h2 e
    exact ih _ h1a h2a

theorem bfsLoop_ok (graph : String → List JoinEdge) (tu : String) (mh : Nat)
    (fu : String) :
    ∀ (fuel : Nat) (queue : List BfsEntry) (paths : List JoinPath),
      (∀ en ∈ queue, EntryOK fu mh en) → (∀ p ∈ paths, PathOK fu tu mh p) →
      ∀ p ∈ bfsLoop graph tu mh fu fuel queue paths, PathOK fu tu mh p := by
  intro fuel
  induction fuel with
  | zero => intro queue paths hq hp p hmem; exact hp p hmem
  | succ fuel ih =>
    intro queue paths hq hp p hmem
    cases queue with
    | nil => exact hp p hmem
    | cons en rest =>
      simp only [bfsLoop] at hmem
      split at hmem
      · exact ih rest paths (fun x hx => hq x (List.mem_cons_of_mem _ hx)) hp p hmem
      · obtain ⟨h1a, h2a⟩ := bfsFold_ok tu mh fu en (hq en (List.mem_cons_self _ _))
          (graph en.current) (paths, []) hp (by simp)
        refine ih _ _ ?_ h1a p hmem
        intro x hx
        rcases List.mem_append.mp hx with hx | hx
        · exact hq x (List.mem_cons_of_mem _ hx)
        · exact h2a x hx

theorem mkJoinPath_steps (fu tu : String) (es : List JoinEdge) :
    (mkJoinPath fu tu es).steps = es.map edgeToStep := rfl

theorem mkJoinPath_total_score (fu tu : String) (es : List JoinEdge) :
    (mkJoinPath fu tu es).total_score = (es.map scoreEdge).sum := rfl

/-- Reversing an edge preserves its score: confidence and relationship
kind are unchanged and the warning penalty only tests presence. -/
theorem scoreEdge_reverse (e : JoinEdge) : scoreEdge (reverseEdge e) = scoreEdge e := by
  unfold scoreEdge reverseEdge
  simp only []
  rw [Bool.or_comm]

/-- The reversed path (reverse edges, reverse order) has the same total
score. -/
theorem reverse_path_total_score (fu tu : String) (es : List JoinEdge) :
    (mkJoinPath tu fu ((es.map reverseEdge).reverse)).total_score =
      (mkJoinPath fu tu es).total_score := by
  rw [mkJoinPath_total_score, mkJoinPath_total_score]
  rw [List.map_reverse, List.sum_reverse, List.map_map]
  congr 1
  simp [Function.comp_def, scoreEdge_reverse]

/-- C8 counterexample: with `max_hops = 0` the BFS still emits the 1-hop
path A→B, so "hop_count ≤ max_hops" fails as universally stated — the
initial queue entry has an empty path and the `len(path) > max_hops` guard
runs before the extension. -/
theorem find_join_path_maxhops_counterexample :
    (cexCatalog.find_join_path "A" "B" 0).map JoinPath.hop_count = [1] ∧
    ¬ (∀ p ∈ cexCatalog.find_join_path "A" "B" 0, p.hop_count ≤ 0) := by
  constructor
  · decide
  · decide

/-- C8 amended: every returned path has hop_count ≤ max max_hops 1 (so
≤ max_hops whenever max_hops ≥ 1), visits pairwise-distinct tables, and its
reverse (via synthesized reverse edges) has an identical total score; the
result is sorted by (hop_count ascending, total_score descending); and a
self-join returns no paths. -/
theorem find_join_path_contract (cat : SchemaCatalog) (ft tt : String) (mh : Nat) :
    (∀ p ∈ cat.find_join_path ft tt mh,
       p.hop_count ≤ max mh 1 ∧
       (upperS ft :: p.steps.map JoinStep.to_table).Nodup ∧
       ∃ es, p = mkJoinPath (upperS ft) (upperS tt) es ∧
         (mkJoinPath (upperS tt) (upperS ft) ((es.map reverseEdge).reverse)).total_score =
           p.total_score) ∧
    List.Sorted pathLE (cat.find_join_path ft tt mh) ∧
    (upperS ft = upperS tt → cat.find_join_path ft tt mh = []) ∧
    (1 ≤ mh → ∀ p ∈ cat.find_join_path ft tt mh, p.hop_count ≤ mh) := by
  have hmain : ∀ p ∈ cat.find_join_path ft tt mh,
      PathOK (upperS ft) (upperS tt) mh p := by
    intro p hp
    simp only [SchemaCatalog.find_join_path] at hp
    split at hp
    · exact absurd hp (by simp)
    split at hp
    · exact absurd hp (by simp)
    rw [List.mem_insertionSort] at hp
    exact bfsLoop_ok _ (upperS tt) mh (upperS ft) _ _ _
      (by
        intro en hen
        simp only [List.mem_singleton] at hen
        subst hen
        exact ⟨Or.inr rfl, rfl, by simp⟩)
      (by simp) p hp
  refine ⟨?_, ?_, ?_, ?_⟩
  · intro p hp
    obtain ⟨es, rfl, hle, hnd⟩ := hmain p hp
    refine ⟨?_, ?_, es, rfl, reverse_path_total_score _ _ es⟩
    · show (mkJoinPath (upperS ft) (upperS tt) es).steps.length ≤ max mh 1
      rw [mkJoinPath_steps, List.length_map]
      exact hle
    · rw [mkJoinPath_steps, List.map_map]
      exact hnd
  · simp only [SchemaCatalog.find_join_path]
    split
    · exact List.sorted_nil
    split
    · exact List.sorted_nil
    · exact List.sorted_insertionSort pathLE _
  · intro heq
    simp only [SchemaCatalog.find_join_path]
    rw [if_pos (by simpa using heq)]
  · intro hmh p hp
    obtain ⟨es, rfl, hle, -⟩ := hmain p hp
    show (mkJoinPath (upperS ft) (upperS tt) es).steps.length ≤ mh
    rw [mkJoinPath_steps, List.length_map]
    omega

/-- C8 witness: the contract at the concrete catalog with max_hops = 3. -/
theorem find_join_path_contract_witness :
    (upperS "A" = upperS "A" → cexCatalog.find_join_path "A" "A" 3 = []) ∧
    (1 ≤ 3 → ∀ p ∈ cexCatalog.find_join_path "A" "B" 3, p.hop_count ≤ 3) ∧
    (upperS "A" = upperS "A") ∧ (1 ≤ 3) :=
  ⟨(find_join_path_contract cexCatalog "A" "A" 3).2.2.1,
   (find_join_path_contract cexCatalog "A" "B" 3).2.2.2,
   rfl, by omega⟩

example : quickKeywordCheck "SELECT vn FROM ovst LIMIT 10" = none := by decide
example : quickKeywordCheck "SELECT COUNT(*) FROM ovst; DROP TABLE ovst" =
    some "Forbidden keyword: DROP" := by decide
example : quickKeywordCheck "SELECT vn FROM ovst WHERE note LIKE '%DELETE%' LIMIT 5" = none := by
  decide
example : quickKeywordCheck "select vn from ovst where x = 1 limit 5" = none := by decide

end SQLBot
